import Mathlib

/-!
# PostgreSQL replication demo toolkit

A shallow embedding of the three Go programs of the repository
(`cmd/connection_check`, `cmd/replication_demo`, `cmd/simple_demo`) and of
`replication_test.go`, together with the properties proved about them.

Conventions of the embedding.

* A Go `string` is a Lean `String`; the `strings` functions used by the
  programs are defined below on the underlying character list.
* A Go `float64` is an arbitrary carrier `F` with the operations the programs
  use on it (`0`, `+`, `/`, conversion from `int`, `>`); `strconv.ParseFloat`
  is a function argument `parseFloat : String → Option F`.
* The world outside the process (environment variables, the database servers,
  the `docker exec` subprocess, the clock) is an explicit argument; every
  external call and every printed line is recorded in a log.
-/

namespace PgReplication

/-! ## Go runtime: `strings` -/

/-- Go `unicode.IsSpace`: the Unicode White_Space property. -/
def isSpace (c : Char) : Bool :=
  let n := c.toNat
  n == 0x20 || (decide (0x09 ≤ n) && decide (n ≤ 0x0D)) || n == 0x85 || n == 0xA0 ||
  n == 0x1680 || (decide (0x2000 ≤ n) && decide (n ≤ 0x200A)) || n == 0x2028 ||
  n == 0x2029 || n == 0x202F || n == 0x205F || n == 0x3000

/-- Go `strings.TrimSpace`: leading and trailing white space removed. -/
def TrimSpace (s : String) : String :=
  String.mk ((s.data.dropWhile isSpace).reverse.dropWhile isSpace).reverse

/-- Substring test on character lists: `sub` starts at some position of the list. -/
def containsChars : List Char → List Char → Bool
  | [], sub => sub.isEmpty
  | c :: cs, sub => sub.isPrefixOf (c :: cs) || containsChars cs sub

/-- Go `strings.Contains`. -/
def Contains (s substr : String) : Bool :=
  containsChars s.data substr.data

/-- Splitting a character list at every occurrence of `sep`. -/
def splitChars (sep : Char) : List Char → List (List Char)
  | [] => [[]]
  | c :: cs =>
    if c = sep then [] :: splitChars sep cs
    else
      match splitChars sep cs with
      | [] => [[c]]
      | p :: ps => (c :: p) :: ps

/-- Go `strings.Split(s, sep)` for a separator of one character (the programs
split on a newline and on a vertical bar only). -/
def Split (s : String) (sep : Char) : List String :=
  (splitChars sep s.data).map String.mk

/-- Go `unicode.ToLower` on one character: the ASCII letters are mapped here,
the case table for the characters beyond ASCII is the argument `table`. -/
def toLowerRune (table : Char → Char) (c : Char) : Char :=
  if c.toNat < 128 then
    if 'A'.toNat ≤ c.toNat ∧ c.toNat ≤ 'Z'.toNat then Char.ofNat (c.toNat + 32) else c
  else table c

/-- Go `strings.ToLower`: every character mapped by `unicode.ToLower`. -/
def ToLower (table : Char → Char) (s : String) : String :=
  String.mk (s.data.map (toLowerRune table))

/-! ## Go runtime: `strconv.Atoi` (64-bit `int`) -/

/-- The two kinds of `strconv.NumError`. -/
inductive NumError where
  | ErrSyntax
  | ErrRange
  deriving DecidableEq, Repr

/-- The digit loop of `strconv.ParseUint(s, 10, 64)`: `n` is the value read so
far. A character that is no decimal digit is a syntax error with value 0; a
value that leaves the unsigned 64-bit range is a range error with the maximal
value, reported as soon as it is seen. -/
def parseUintLoop : List Char → Nat → Nat × Option NumError
  | [], n => (n, none)
  | c :: cs, n =>
    if '0'.toNat ≤ c.toNat ∧ c.toNat ≤ '9'.toNat then
      if n ≥ (2 ^ 64 - 1) / 10 + 1 then (2 ^ 64 - 1, some NumError.ErrRange)
      else if n * 10 + (c.toNat - '0'.toNat) > 2 ^ 64 - 1 then
        (2 ^ 64 - 1, some NumError.ErrRange)
      else parseUintLoop cs (n * 10 + (c.toNat - '0'.toNat))
    else (0, some NumError.ErrSyntax)

/-- Go `strconv.ParseUint(s, 10, 64)`. -/
def ParseUint (s : List Char) : Nat × Option NumError :=
  match s with
  | [] => (0, some NumError.ErrSyntax)
  | _ => parseUintLoop s 0

/-- Go `strconv.ParseInt(s, 10, 0)` with a 64-bit `int`: an optional sign, then
`ParseUint`; a syntax error gives 0, a value outside the signed range gives the
nearest bound with a range error. -/
def ParseInt (s : List Char) : Int × Option NumError :=
  match s with
  | [] => (0, some NumError.ErrSyntax)
  | c :: cs =>
    let neg := c = '-'
    let body := if c = '+' ∨ c = '-' then cs else c :: cs
    match ParseUint body with
    | (_, some NumError.ErrSyntax) => (0, some NumError.ErrSyntax)
    | (un, _) =>
      if ¬ neg ∧ un ≥ 2 ^ 63 then ((2 ^ 63 - 1 : Int), some NumError.ErrRange)
      else if neg ∧ un > 2 ^ 63 then (-(2 ^ 63 : Int), some NumError.ErrRange)
      else (if neg then -(un : Int) else (un : Int), none)

/-- Go `strconv.Atoi`: the value and the error (`none` is a nil error). -/
def Atoi (s : String) : Int × Option NumError :=
  ParseInt s.data

/-! ## Environment variables -/

/-- The process environment: `none` for a variable that is not set. -/
abbrev Env := String → Option String

/-- Go `os.Getenv`: the value of the variable, the empty string when it is not set. -/
def Getenv (env : Env) (key : String) : String :=
  match env key with
  | some v => v
  | none => ""

/-- The helper `getEnv(key, defaultValue)`, the same text in all four files. -/
def getEnv (env : Env) (key defaultValue : String) : String :=
  let value := Getenv env key
  if value ≠ "" then value else defaultValue

/-! ## How a Go process ends -/

/-- The way a Go `main` ends: it returns, it calls `os.Exit`, or a run-time
panic reaches the top of the goroutine. -/
inductive Termination where
  | returned
  | exited (code : Nat)
  | panicked
  deriving DecidableEq, Repr

/-- The exit status of the process for each way of ending. -/
def exitStatus : Termination → Nat
  | Termination.returned => 0
  | Termination.exited code => code
  | Termination.panicked => 2

/-- Go `strings.Repeat`. -/
def Repeat (s : String) : Nat → String
  | 0 => ""
  | n + 1 => s ++ Repeat s n

/-- Go `len(s)` and the bytes a slice expression `s[:n]` works on: the UTF-8
encoding of the string. -/
def utf8Bytes (s : String) : List UInt8 :=
  s.data.flatMap String.utf8EncodeChar

/-- Two's-complement wrap-around of a 64-bit `int`. -/
def wrapInt (n : Int) : Int :=
  (n + 2 ^ 63) % 2 ^ 64 - 2 ^ 63

/-! ## The world outside the process -/

/-- The result of `cmd.CombinedOutput()`: the bytes written by the subprocess
and whether an error was returned. -/
structure CmdResult where
  output : String
  err : Bool

/-- The struct `ReplicationData` (`TestReplicationData` in the test file);
`CreatedAt` is an instant, kept as a number. -/
structure ReplicationData where
  ID : Int
  Data : String
  CreatedAt : Nat

/-- One step of `rows.Next()` followed by `rows.Scan`: a scanned row, or a scan error. -/
inductive ScanResult where
  | row (data : ReplicationData)
  | scanErr

/-- The answer to `StandbyDB.Query`: an error, or the rows delivered. -/
structure QueryResult where
  err : Bool
  rows : List ScanResult

/-- The answer to `QueryRow("SELECT count(*) ...").Scan(&count)`. -/
structure CountResult where
  count : Int
  err : Bool

/-- Everything the process reads from outside, fixed for one run: the
environment, the outcome of opening and pinging the standby connection, and for
each kind of external call the answer to its n-th invocation. -/
structure Outside where
  env : Env
  openErr : Bool
  pingErr : Bool
  cmd : Nat → CmdResult
  rows : Nat → QueryResult
  count : Nat → CountResult
  clock : Nat → Nat

/-- One argument of a `Printf`-style call. -/
inductive Arg (F : Type) where
  | s (v : String)
  | d (v : Int)
  | f (v : F)
  | errv
  deriving DecidableEq

/-- What the process does that is visible from outside, in order. -/
inductive Event (F : Type) where
  | println (text : String)
  | printf (format : String) (args : List (Arg F))
  | exec (argv : List String)
  | dbOpen (connStr : String)
  | dbPing
  | dbClose
  | queryRows (sql : String) (limit : Int)
  | queryCount (sql : String)
  | query (sql : String)
  | sleep (millis : Nat)
  | logf (format : String) (args : List (Arg F))
  | fatalf (format : String) (args : List (Arg F))
  deriving DecidableEq

/-- The state of one run: how many calls of each kind were made, and the log. -/
structure State (F : Type) where
  cmdCalls : Nat
  rowsCalls : Nat
  countCalls : Nat
  clockReads : Nat
  log : List (Event F)

/-- Whether an event is a call to the outside (a subprocess, the database,
a sleep), as opposed to a printed or logged line. -/
def Event.isCall {F : Type} : Event F → Bool
  | Event.println _ => false
  | Event.printf _ _ => false
  | Event.logf _ _ => false
  | Event.fatalf _ _ => false
  | _ => true

/-- The calls to the outside made so far, in order. -/
def State.calls {F : Type} (st : State F) : List (Event F) :=
  st.log.filter Event.isCall

/-- The log of the state starts with the events `base`. -/
def State.LogExtends {F : Type} (base : List (Event F)) (st : State F) : Prop :=
  ∃ more, st.log = base ++ more

/-- The state at process start. -/
def State.start (F : Type) : State F :=
  { cmdCalls := 0, rowsCalls := 0, countCalls := 0, clockReads := 0, log := [] }

/-- Appending one event to the log. -/
def State.emit {F : Type} (st : State F) (e : Event F) : State F :=
  { st with log := st.log ++ [e] }

/-- The parts of the Go library taken as given: `strconv.ParseFloat(s, 64)`
(`none` for a non-nil error), the case table of `unicode.ToLower` beyond ASCII,
`time.Time.Format` and `time.Duration.Seconds`. -/
structure Runtime (F : Type) where
  parseFloat : String → Option F
  lowerTable : Char → Char
  format : String → Nat → String
  seconds : Int → F

/-- A call of `time.Now()`. -/
def timeNow {F : Type} (o : Outside) (st : State F) : Nat × State F :=
  (o.clock st.clockReads, { st with clockReads := st.clockReads + 1 })

/-- A call of `exec.Command(argv...).CombinedOutput()`. -/
def CombinedOutput {F : Type} (o : Outside) (argv : List String) (st : State F) :
    CmdResult × State F :=
  (o.cmd st.cmdCalls,
    { st with cmdCalls := st.cmdCalls + 1, log := st.log ++ [Event.exec argv] })

/-- A call of `time.Sleep`. -/
def timeSleep {F : Type} (millis : Nat) (st : State F) : State F :=
  st.emit (Event.sleep millis)

/-! ## `cmd/connection_check` -/

namespace ConnectionCheck

/-- What the server behind one connection string does: whether `sql.Open`,
`Ping` and `Close` fail, and the answers to the three `QueryRow` calls (`none`
for an error). -/
structure Server where
  openErr : Bool
  pingErr : Bool
  closeErr : Bool
  version : Option String
  count : Option Int
  isRecovery : Option Bool

/-- A line printed by the program. `sliced` is the text built from the byte
slice `version[:60]`. -/
inductive Msg where
  | println (text : String)
  | printf (format : String) (args : List (Arg Unit))
  | sliced (format : String) (bytes : List UInt8)
  deriving DecidableEq

/-- The deferred function of `testConnection`: `db.Close()`, its error printed. -/
def deferredClose (srv : Server) (log : List Msg) : List Msg :=
  if srv.closeErr then log ++ [Msg.printf "   ⚠️ DB接続クローズエラー: %v\n" [Arg.errv]] else log

/-- The function `testConnection`; the result is `none` when the slice
expression `version[:60]` is out of range and the function panics. -/
def testConnection (env : Env) (connect : String → Server) (host : String) (port : Int)
    (description : String) : Option Bool × List Msg :=
  let log := [Msg.printf "🔗 %sへの接続をテスト中...\n" [Arg.s description],
              Msg.printf "   ホスト: %s:%d\n" [Arg.s host, Arg.d port]]
  let dbUser := getEnv env "POSTGRES_USER" "postgres"
  let dbPassword := getEnv env "POSTGRES_PASSWORD" "password"
  let dbName := getEnv env "POSTGRES_DB" "testdb"
  let connStr := "host=" ++ host ++ " port=" ++ toString port ++ " user=" ++ dbUser ++
    " password=" ++ dbPassword ++ " dbname=" ++ dbName ++
    " sslmode=disable connect_timeout=10"
  let srv := connect connStr
  if srv.openErr then
    (some false, log ++ [Msg.printf "   ❌ 接続失敗: %v\n" [Arg.errv]])
  else if srv.pingErr then
    (some false, deferredClose srv (log ++ [Msg.printf "   ❌ 接続失敗: %v\n" [Arg.errv]]))
  else
    match srv.version with
    | none =>
      (some false,
        deferredClose srv (log ++ [Msg.printf "   ❌ バージョン取得失敗: %v\n" [Arg.errv]]))
    | some version =>
      if (utf8Bytes version).length < 60 then (none, deferredClose srv log)
      else
        let log := log ++ [Msg.sliced "   ✅ 接続成功: %s\n"
          ((utf8Bytes version).take 60 ++ utf8Bytes "...")]
        match srv.count with
        | none =>
          (some false,
            deferredClose srv (log ++ [Msg.printf "   ❌ テーブル確認失敗: %v\n" [Arg.errv]]))
        | some count =>
          let log := log ++
            [Msg.printf "   📊 test_replicationテーブル: %d件のデータ\n" [Arg.d count]]
          match srv.isRecovery with
          | none =>
            (some false, deferredClose srv
              (log ++ [Msg.printf "   ❌ サーバータイプ確認失敗: %v\n" [Arg.errv]]))
          | some isRecovery =>
            let serverType := if isRecovery then "スタンバイ" else "プライマリ"
            (some true, deferredClose srv
              (log ++ [Msg.printf "   🏷️  サーバータイプ: %s\n" [Arg.s serverType]]))

/-- The host and port `main` reads from the environment for the primary. -/
def primaryHost (env : Env) : String := getEnv env "POSTGRES_PRIMARY_HOST" "localhost"

/-- The port of the primary: the error of `Atoi` is discarded. -/
def primaryPort (env : Env) : Int := (Atoi (getEnv env "POSTGRES_PRIMARY_PORT" "5432")).1

/-- The host `main` reads from the environment for the standby. -/
def standbyHost (env : Env) : String := getEnv env "POSTGRES_STANDBY_HOST" "localhost"

/-- The port of the standby: the error of `Atoi` is discarded. -/
def standbyPort (env : Env) : Int := (Atoi (getEnv env "POSTGRES_STANDBY_PORT" "5433")).1

/-- The call `testConnection(primaryHost, primaryPort, ...)` of `main`. -/
def primaryTest (env : Env) (connect : String → Server) : Option Bool × List Msg :=
  testConnection env connect (primaryHost env) (primaryPort env) "プライマリサーバー"

/-- The call `testConnection(standbyHost, standbyPort, ...)` of `main`. -/
def standbyTest (env : Env) (connect : String → Server) : Option Bool × List Msg :=
  testConnection env connect (standbyHost env) (standbyPort env) "スタンバイサーバー"

/-- The program `connection_check`: how it ends, and what it prints. -/
def main (env : Env) (connect : String → Server) : Termination × List Msg :=
  let log := [Msg.println "🎯 PostgreSQL接続テスト", Msg.println (Repeat "=" 50)]
  match primaryTest env connect with
  | (none, out) => (Termination.panicked, log ++ out)
  | (some primaryOK, out) =>
    let log := log ++ out ++ [Msg.println ""]
    match standbyTest env connect with
    | (none, out) => (Termination.panicked, log ++ out)
    | (some standbyOK, out) =>
      let log := log ++ out ++ [Msg.println "", Msg.println "📋 テスト結果サマリー:"]
      let log := log ++
        [if primaryOK then Msg.println "   プライマリ: ✅ OK"
         else Msg.println "   プライマリ: ❌ NG"]
      let log := log ++
        [if standbyOK then Msg.println "   スタンバイ: ✅ OK"
         else Msg.println "   スタンバイ: ❌ NG"]
      if primaryOK && standbyOK then
        (Termination.exited 0, log ++
          [Msg.println "\n🎉 全ての接続テストが成功しました！",
           Msg.println "   デモアプリケーションを実行できます。"])
      else
        (Termination.exited 1, log ++
          [Msg.println "\n⚠️  接続に問題があります。",
           Msg.println "   Docker Composeコンテナの状態を確認してください。"])

end ConnectionCheck

/-! ## `cmd/replication_demo` -/

namespace ReplicationDemo

variable {F : Type}

/-- The function `NewReplicationDatabase`: `true` when a handle is returned,
`false` when an error is returned. -/
def NewReplicationDatabase (o : Outside) (st : State F) : Bool × State F :=
  let dbUser := getEnv o.env "POSTGRES_USER" "postgres"
  let dbPassword := getEnv o.env "POSTGRES_PASSWORD" "password"
  let dbName := getEnv o.env "POSTGRES_DB" "testdb"
  let standbyConnStr := "host=localhost port=5433 user=" ++ dbUser ++ " password=" ++
    dbPassword ++ " dbname=" ++ dbName ++ " sslmode=disable"
  let st := st.emit (Event.dbOpen standbyConnStr)
  if o.openErr then (false, st)
  else
    let st := st.emit Event.dbPing
    if o.pingErr then (false, st.emit Event.dbClose)
    else
      let st := st.emit (Event.println "✅ レプリケーションデータベース接続を初期化")
      let st := st.emit (Event.println "   - 読み取り: スタンバイ (localhost:5433)")
      let st := st.emit (Event.println "   - 書き込み: プライマリ (Docker経由)")
      (true, st)

/-- The method `ReplicationDatabase.Close`. -/
def Close (st : State F) : State F :=
  st.emit Event.dbClose

/-- The argument list of every `docker exec` call: `psql` in the primary's
container, running one SQL command. -/
def psqlArgv (sql : String) : List String :=
  ["docker", "exec", "postgres-primary", "psql", "-U", "postgres", "-d", "testdb", "-c", sql]

/-- The loop of `WriteToPrimary` over the output lines: the row ID of the first
line that is taken, `none` when the loop runs to its end. -/
def writeLoop (rt : Runtime F) : List String → Option String
  | [] => none
  | line :: rest =>
    if Contains line "|" && !Contains (ToLower rt.lowerTable line) "id" then
      let parts := Split line '|'
      if parts.length ≥ 2 then some (TrimSpace (parts.getD 0 ""))
      else writeLoop rt rest
    else writeLoop rt rest

/-- The method `ReplicationDatabase.WriteToPrimary`. -/
def WriteToPrimary (o : Outside) (rt : Runtime F) (dataText : String) (st : State F) :
    Bool × State F :=
  let ran := CombinedOutput o (psqlArgv ("INSERT INTO test_replication (data) VALUES ('" ++
    dataText ++ "') RETURNING id, created_at;")) st
  let st := ran.2
  if ran.1.err then (false, st.emit (Event.printf "❌ 書き込み失敗: %v\n" [Arg.errv]))
  else
    let lines := Split (TrimSpace ran.1.output) '\n'
    match writeLoop rt lines with
    | some rowID =>
      (true, st.emit (Event.printf "📝 プライマリに書き込み成功: ID=%s, データ='%s'\n"
        [Arg.s rowID, Arg.s dataText]))
    | none =>
      (true, st.emit (Event.printf "📝 プライマリに書き込み成功: データ='%s'\n"
        [Arg.s dataText]))

/-- The loop of `ReadFromStandby` over the rows: `none` at the first scan error. -/
def scanLoop : List ScanResult → List ReplicationData → Option (List ReplicationData)
  | [], results => some results
  | ScanResult.scanErr :: _, _ => none
  | ScanResult.row data :: rest, results => scanLoop rest (results ++ [data])

/-- The method `ReplicationDatabase.ReadFromStandby`: `none` for a returned error. -/
def ReadFromStandby (o : Outside) (limit : Int) (st : State F) :
    Option (List ReplicationData) × State F :=
  let query := "SELECT id, data, created_at FROM test_replication ORDER BY created_at DESC LIMIT $1"
  let res := o.rows st.rowsCalls
  let st : State F :=
    { st with rowsCalls := st.rowsCalls + 1, log := st.log ++ [Event.queryRows query limit] }
  if res.err then (none, st)
  else
    match scanLoop res.rows [] with
    | none => (none, st)
    | some results =>
      (some results,
        st.emit (Event.printf "📖 スタンバイから読み取り: %d件のデータを取得\n"
          [Arg.d results.length]))

/-- The SQL text of `GetReplicationStatus`. -/
def statusQuery : String :=
  "SELECT \n\t\t\tclient_addr, state, sent_lsn, write_lsn, flush_lsn, replay_lsn,\n" ++
  "\t\t\tCASE WHEN replay_lsn IS NOT NULL THEN \n" ++
  "\t\t\t\tEXTRACT(EPOCH FROM (now() - pg_last_xact_replay_timestamp()))\n" ++
  "\t\t\tEND AS lag_seconds\n" ++
  "\t\t\tFROM pg_stat_replication;"

/-- The loop of `GetReplicationStatus` over the output lines: client address,
state and lag of the first line that is taken, `none` when the loop runs to its end. -/
def statusLoop [Zero F] (rt : Runtime F) : List String → Option (String × String × F)
  | [] => none
  | line :: rest =>
    if Contains line "streaming" then
      let parts := Split line '|'
      if parts.length ≥ 7 then
        let clientAddr := TrimSpace (parts.getD 0 "")
        let state := TrimSpace (parts.getD 1 "")
        let lagStr := TrimSpace (parts.getD 6 "")
        let lagValue : F :=
          if lagStr ≠ "" ∧ lagStr ≠ " " then
            match rt.parseFloat lagStr with
            | some parsed => parsed
            | none => 0
          else 0
        some (clientAddr, state, lagValue)
      else statusLoop rt rest
    else statusLoop rt rest

/-- The method `ReplicationDatabase.GetReplicationStatus`: `none` is the nil
pointer, `some x` a pointer to the value `x`. -/
def GetReplicationStatus [Zero F] (o : Outside) (rt : Runtime F) (st : State F) :
    Option F × State F :=
  let ran := CombinedOutput o (psqlArgv statusQuery) st
  let st := ran.2
  if ran.1.err then
    (none, st.emit (Event.printf "❌ レプリケーション状態取得失敗: %v\n" [Arg.errv]))
  else
    let lines := Split (TrimSpace ran.1.output) '\n'
    match statusLoop rt lines with
    | some (clientAddr, state, lagValue) =>
      (some lagValue,
        st.emit (Event.printf "⏱️  レプリケーション状態: %s, 遅延: %.3f秒 (クライアント: %s)\n"
          [Arg.s state, Arg.f lagValue, Arg.s clientAddr]))
    | none => (some 0, st.emit (Event.println "✅ レプリケーション接続確認済み"))

/-- The method `ReplicationDatabase.GetDataCount`. -/
def GetDataCount (o : Outside) (st : State F) : CountResult × State F :=
  (o.count st.countCalls,
    { st with countCalls := st.countCalls + 1,
              log := st.log ++ [Event.queryCount "SELECT count(*) FROM test_replication"] })

/-- The function `NewReplicationDemo`. -/
def NewReplicationDemo (o : Outside) (st : State F) : Bool × State F :=
  NewReplicationDatabase o st

/-- The method `ReplicationDemo.RunBasicDemo`. -/
def RunBasicDemo [Zero F] (o : Outside) (rt : Runtime F) (st : State F) : Bool × State F :=
  let st := st.emit (Event.println ("\n" ++ Repeat "=" 60))
  let st := st.emit (Event.println "🚀 基本的な読み書き分離デモを開始")
  let st := st.emit (Event.println (Repeat "=" 60))
  let counted := GetDataCount o st
  let initialCount := counted.1.count
  let st := counted.2
  if counted.1.err then
    (false, st.emit (Event.printf "❌ 初期データ件数取得エラー: %v\n" [Arg.errv]))
  else
    let st := st.emit (Event.printf "📊 開始時のデータ件数: %d\n" [Arg.d initialCount])
    let now := timeNow o st
    let testData := "Demo data at " ++ rt.format "2006-01-02 15:04:05" now.1
    let written := WriteToPrimary o rt testData now.2
    let writeSuccess := written.1
    let st := written.2
    if !writeSuccess then
      (false, st.emit (Event.println "❌ 書き込みに失敗したため、デモを中断します"))
    else
      let st := timeSleep 1000 st
      let st := (GetReplicationStatus o rt st).2
      let read := ReadFromStandby o 5 st
      let st := read.2
      match read.1 with
      | none =>
        (false, st.emit (Event.printf "❌ スタンバイデータ読み取りエラー: %v\n" [Arg.errv]))
      | some standbyData =>
        let counted := GetDataCount o st
        let finalCount := counted.1.count
        let st := counted.2
        if counted.1.err then
          (false, st.emit (Event.printf "❌ 最終データ件数取得エラー: %v\n" [Arg.errv]))
        else
          let st := st.emit (Event.printf "\n📊 データ同期結果:\n" [])
          let st := st.emit (Event.printf "   開始時: %d件\n" [Arg.d initialCount])
          let st := st.emit (Event.printf "   終了時: %d件\n" [Arg.d finalCount])
          let st := st.emit (Event.printf "   増加: %d件\n"
            [Arg.d (wrapInt (finalCount - initialCount))])
          if finalCount > initialCount then
            let st := st.emit (Event.println "   ✅ データが正常に同期されました")
            match standbyData with
            | latest :: _ =>
              (true, st.emit (Event.printf "   📄 最新データ: ID=%d, 内容='%s'\n"
                [Arg.d latest.ID, Arg.s latest.Data]))
            | [] => (true, st)
          else
            (true, st.emit (Event.println "   ⚠️  データ同期に問題があります"))

/-- The summation loop of `average`. -/
def sumLoop [Add F] : List F → F → F
  | [], sum => sum
  | v :: rest, sum => sumLoop rest (sum + v)

/-- The function `average`. -/
def average [Zero F] [Add F] [Div F] [NatCast F] (values : List F) : F :=
  if values.length = 0 then 0
  else sumLoop values 0 / (values.length : F)

/-- The loop of `RunPerformanceTest`: `n` iterations remain, `i` is the loop variable. -/
def perfLoop (o : Outside) (rt : Runtime F) (iterations : Int) :
    Nat → Int → List F → List F → State F → List F × List F × State F
  | 0, _, writeTimes, readTimes, st => (writeTimes, readTimes, st)
  | n + 1, i, writeTimes, readTimes, st =>
    let st := st.emit (Event.printf "\n🔄 テスト %d/%d\n" [Arg.d (i + 1), Arg.d iterations])
    let startTime := timeNow o st
    let now := timeNow o startTime.2
    let testData := "Performance test #" ++ toString (i + 1) ++ " at " ++
      rt.format "2006-01-02T15:04:05" now.1
    let written := WriteToPrimary o rt testData now.2
    let success := written.1
    let afterWrite := timeNow o written.2
    let writeTime := rt.seconds ((afterWrite.1 : Int) - (startTime.1 : Int))
    let st := afterWrite.2
    if success then
      let writeTimes := writeTimes ++ [writeTime]
      let st := st.emit (Event.printf "   📝 書き込み時間: %.3f秒\n" [Arg.f writeTime])
      let st := timeSleep 500 st
      let startTime := timeNow o st
      let read := ReadFromStandby o 1 startTime.2
      let afterRead := timeNow o read.2
      let readTime := rt.seconds ((afterRead.1 : Int) - (startTime.1 : Int))
      let st := afterRead.2
      match read.1 with
      | some _ =>
        perfLoop o rt iterations n (i + 1) writeTimes (readTimes ++ [readTime])
          (st.emit (Event.printf "   📖 読み取り時間: %.3f秒\n" [Arg.f readTime]))
      | none =>
        perfLoop o rt iterations n (i + 1) writeTimes readTimes
          (st.emit (Event.printf "   ❌ 読み取り失敗: %v\n" [Arg.errv]))
    else
      perfLoop o rt iterations n (i + 1) writeTimes readTimes
        (st.emit (Event.println "   ❌ 書き込み失敗"))

/-- The method `ReplicationDemo.RunPerformanceTest`. -/
def RunPerformanceTest [Zero F] [Add F] [Div F] [NatCast F] (o : Outside) (rt : Runtime F)
    (iterations : Int) (st : State F) : State F :=
  let st := st.emit (Event.printf ("\n" ++ Repeat "=" 60 ++ "\n") [])
  let st := st.emit (Event.printf "⚡ パフォーマンステスト開始 (%d回)\n" [Arg.d iterations])
  let st := st.emit (Event.println (Repeat "=" 60))
  let looped := perfLoop o rt iterations iterations.toNat 0 [] [] st
  let writeTimes := looped.1
  let readTimes := looped.2.1
  let st := looped.2.2
  if writeTimes.length > 0 ∧ readTimes.length > 0 then
    let avgWrite := average writeTimes
    let avgRead := average readTimes
    let st := st.emit (Event.printf "\n📈 パフォーマンス結果:\n" [])
    let st := st.emit (Event.printf "   平均書き込み時間: %.3f秒\n" [Arg.f avgWrite])
    let st := st.emit (Event.printf "   平均読み取り時間: %.3f秒\n" [Arg.f avgRead])
    let st := st.emit (Event.printf "   書き込み/読み取り比: %.1f倍\n" [Arg.f (avgWrite / avgRead)])
    let st := st.emit (Event.printf "\n📊 最終レプリケーション状態:\n" [])
    (GetReplicationStatus o rt st).2
  else
    st.emit (Event.println "❌ 有効なパフォーマンスデータが取得できませんでした")

/-- The write loop of `RunDataConsistencyCheck`: `n` iterations remain, `i` is
the loop variable. -/
def consistencyWriteLoop (o : Outside) (rt : Runtime F) (baseTime : String) :
    Nat → Int → Int → State F → Int × State F
  | 0, _, successCount, st => (successCount, st)
  | n + 1, i, successCount, st =>
    let data := "Consistency test " ++ toString (i + 1) ++ " - " ++ baseTime
    let written := WriteToPrimary o rt data st
    let success := written.1
    let st := written.2
    if success then
      consistencyWriteLoop o rt baseTime n (i + 1) (successCount + 1)
        (timeSleep 300 (st.emit (Event.printf "   ✅ データ%d書き込み完了\n" [Arg.d (i + 1)])))
    else
      consistencyWriteLoop o rt baseTime n (i + 1) successCount
        (timeSleep 300 (st.emit (Event.printf "   ❌ データ%d書き込み失敗\n" [Arg.d (i + 1)])))

/-- The counting loop of `RunDataConsistencyCheck` over the rows read. -/
def consistencyCountLoop (baseTime : String) :
    List ReplicationData → Int → State F → Int × State F
  | [], consistencyCount, st => (consistencyCount, st)
  | row :: rest, consistencyCount, st =>
    if Contains row.Data baseTime then
      consistencyCountLoop baseTime rest (consistencyCount + 1)
        (st.emit (Event.printf "   ✅ 同期確認: ID=%d, データ='%s'\n"
          [Arg.d row.ID, Arg.s row.Data]))
    else consistencyCountLoop baseTime rest consistencyCount st

/-- The method `ReplicationDemo.RunDataConsistencyCheck`. -/
def RunDataConsistencyCheck (o : Outside) (rt : Runtime F) (st : State F) : Bool × State F :=
  let st := st.emit (Event.printf ("\n" ++ Repeat "=" 60 ++ "\n") [])
  let st := st.emit (Event.println "🔍 データ整合性チェック")
  let st := st.emit (Event.println (Repeat "=" 60))
  let st := st.emit (Event.println "📝 連続データ書き込み中...")
  let now := timeNow o st
  let baseTime := rt.format "20060102_150405" now.1
  let written := consistencyWriteLoop o rt baseTime 3 0 0 now.2
  let successCount := written.1
  let st := written.2
  let st := st.emit (Event.println "\n⏱️  レプリケーション完了待機...")
  let st := timeSleep 2000 st
  let st := st.emit (Event.println "\n📖 整合性確認...")
  let read := ReadFromStandby o 5 st
  let st := read.2
  match read.1 with
  | none => (false, st.emit (Event.printf "❌ データ読み取りエラー: %v\n" [Arg.errv]))
  | some data =>
    let counted := consistencyCountLoop baseTime data 0 st
    let consistencyCount := counted.1
    let st := counted.2
    let st := st.emit (Event.printf "\n📊 整合性結果:\n" [])
    let st := st.emit (Event.printf "   書き込み成功: %d件\n" [Arg.d successCount])
    let st := st.emit (Event.printf "   同期確認: %d件\n" [Arg.d consistencyCount])
    if consistencyCount ≥ successCount then
      (true, st.emit (Event.println "   🎉 データ整合性テスト成功！"))
    else
      (false, st.emit (Event.println "   ⚠️  一部データが未同期の可能性があります"))

/-- The program `replication_demo`: how it ends, and the final state with the log.
The function has no `os.Exit` call and no slice or index expression that can
panic, so it always returns. -/
def main [Zero F] [Add F] [Div F] [NatCast F] (o : Outside) (rt : Runtime F) :
    Termination × State F :=
  let created := NewReplicationDemo o (State.start F)
  let st := created.2
  if !created.1 then
    (Termination.returned, st.emit (Event.printf "❌ デモ初期化エラー: %v\n" [Arg.errv]))
  else
    let st := st.emit (Event.println "🎯 PostgreSQL読み書き分離デモアプリケーション（Go版）")
    let st := st.emit (Event.println "🔗 Docker環境でのレプリケーション動作確認")
    let basic := RunBasicDemo o rt st
    let basicSuccess := basic.1
    let st := basic.2
    if basicSuccess then
      let st := RunPerformanceTest o rt 3 st
      let st := (RunDataConsistencyCheck o rt st).2
      let st := st.emit (Event.printf "\n🎉 全てのデモが完了しました！\n" [])
      let st := st.emit (Event.println "📋 実行内容:")
      let st := st.emit (Event.println "   ✅ 基本的な読み書き分離")
      let st := st.emit (Event.println "   ✅ パフォーマンス測定")
      let st := st.emit (Event.println "   ✅ データ整合性確認")
      let st := st.emit (Event.println "   ✅ レプリケーション監視")
      (Termination.returned, Close st)
    else
      let st := st.emit (Event.println "\n❌ 基本デモに失敗したため、以降のテストをスキップします")
      (Termination.returned, Close st)

end ReplicationDemo

/-! ## `replication_test.go` -/

namespace ReplicationTest

variable {F : Type}

/-- The function `NewTestDatabaseManager`: `true` when a manager is returned. -/
def NewTestDatabaseManager (o : Outside) (st : State F) : Bool × State F :=
  let dbUser := getEnv o.env "POSTGRES_USER" "postgres"
  let dbPassword := getEnv o.env "POSTGRES_PASSWORD" "password"
  let dbName := getEnv o.env "POSTGRES_DB" "testdb"
  let standbyConnStr := "host=localhost port=5433 user=" ++ dbUser ++ " password=" ++
    dbPassword ++ " dbname=" ++ dbName ++ " sslmode=disable connect_timeout=10"
  let st := st.emit (Event.dbOpen standbyConnStr)
  if o.openErr then (false, st)
  else
    let st := st.emit Event.dbPing
    if o.pingErr then (false, st.emit Event.dbClose)
    else (true, st)

/-- The method `TestDatabaseManager.Close`. -/
def Close (st : State F) : State F :=
  st.emit Event.dbClose

/-- The loop of `WriteToPrimary` over the output lines: the first positive
integer found, `none` when the loop runs to its end. -/
def writeLoop : List String → Option Int
  | [] => none
  | line :: rest =>
    let line := TrimSpace line
    let parsed := Atoi line
    if parsed.2 = none ∧ parsed.1 > 0 then some parsed.1
    else writeLoop rest

/-- The method `TestDatabaseManager.WriteToPrimary`. -/
def WriteToPrimary (o : Outside) (dataText : String) (st : State F) :
    (Bool × Int) × State F :=
  let ran := CombinedOutput o (ReplicationDemo.psqlArgv
    ("INSERT INTO test_replication (data) VALUES ('" ++ dataText ++ "') RETURNING id;")) st
  let st := ran.2
  if ran.1.err then ((false, 0), st)
  else
    let lines := Split (TrimSpace ran.1.output) '\n'
    match writeLoop lines with
    | some id => ((true, id), st)
    | none => ((true, 0), st)

/-- The method `TestDatabaseManager.ReadFromStandby`: `none` for a returned error. -/
def ReadFromStandby (o : Outside) (limit : Int) (st : State F) :
    Option (List ReplicationData) × State F :=
  let query := "SELECT id, data, created_at FROM test_replication ORDER BY created_at DESC LIMIT $1"
  let res := o.rows st.rowsCalls
  let st : State F :=
    { st with rowsCalls := st.rowsCalls + 1, log := st.log ++ [Event.queryRows query limit] }
  if res.err then (none, st)
  else
    match ReplicationDemo.scanLoop res.rows [] with
    | none => (none, st)
    | some results => (some results, st)

/-- The SQL text of `TestDatabaseManager.GetReplicationStatus`. -/
def lagQuery : String :=
  "SELECT COALESCE(EXTRACT(EPOCH FROM (now() - pg_last_xact_replay_timestamp())), 0) " ++
  "FROM pg_stat_replication WHERE state = 'streaming' LIMIT 1;"

/-- The method `TestDatabaseManager.GetReplicationStatus`: the lag, and whether
the returned error is non-nil. -/
def GetReplicationStatus [Zero F] [One F] [Neg F] (o : Outside) (rt : Runtime F)
    (st : State F) : (F × Bool) × State F :=
  let ran := CombinedOutput o ["docker", "exec", "postgres-primary", "psql", "-U", "postgres",
    "-d", "testdb", "-t", "-c", lagQuery] st
  let st := ran.2
  if ran.1.err then ((-1, true), st)
  else
    let lagStr := TrimSpace ran.1.output
    if lagStr = "" then ((0, false), st)
    else
      match rt.parseFloat lagStr with
      | none => ((0, false), st)
      | some lag => ((lag, false), st)

/-- The test `TestReplicationLag`: `true` when the test passes. -/
def TestReplicationLag [Zero F] [One F] [Neg F] [NatCast F] [LT F]
    [DecidableRel (fun (a b : F) => a < b)] (o : Outside) (rt : Runtime F) (st : State F) :
    Bool × State F :=
  let created := NewTestDatabaseManager o st
  let st := created.2
  if !created.1 then
    (false, st.emit (Event.fatalf "データベースマネージャー作成エラー: %v" [Arg.errv]))
  else
    let status := GetReplicationStatus o rt st
    let lag := status.1.1
    let st := status.2
    if status.1.2 then
      (false, Close (st.emit (Event.fatalf "レプリケーション遅延取得エラー: %v" [Arg.errv])))
    else if ((10 : Nat) : F) < lag then
      (false, Close (st.emit (Event.fatalf "レプリケーション遅延が異常: %.3f秒" [Arg.f lag])))
    else
      (true, Close (st.emit (Event.logf "✅ レプリケーション遅延テスト成功: %.3f秒" [Arg.f lag])))

/-- The write loop of `TestDataConsistency`: `n` iterations remain, `i` is the
loop variable. -/
def consistencyWriteLoop (o : Outside) (baseTime : String) :
    Nat → Int → Int → State F → Int × State F
  | 0, _, successCount, st => (successCount, st)
  | n + 1, i, successCount, st =>
    let data := "Consistency test " ++ toString (i + 1) ++ " - " ++ baseTime
    let written := WriteToPrimary o data st
    let success := written.1.1
    let st := written.2
    if success then
      consistencyWriteLoop o baseTime n (i + 1) (successCount + 1) (timeSleep 300 st)
    else
      consistencyWriteLoop o baseTime n (i + 1) successCount (timeSleep 300 st)

/-- The counting loop of `TestDataConsistency` over the rows read. -/
def consistencyCountLoop (baseTime : String) : List ReplicationData → Int → Int
  | [], consistencyCount => consistencyCount
  | row :: rest, consistencyCount =>
    if Contains row.Data baseTime then consistencyCountLoop baseTime rest (consistencyCount + 1)
    else consistencyCountLoop baseTime rest consistencyCount

/-- The test `TestDataConsistency`: `true` when the test passes. -/
def TestDataConsistency (o : Outside) (rt : Runtime F) (st : State F) : Bool × State F :=
  let created := NewTestDatabaseManager o st
  let st := created.2
  if !created.1 then
    (false, st.emit (Event.fatalf "データベースマネージャー作成エラー: %v" [Arg.errv]))
  else
    let now := timeNow o st
    let baseTime := rt.format "20060102_150405" now.1
    let written := consistencyWriteLoop o baseTime 3 0 0 now.2
    let successCount := written.1
    let st := timeSleep 2000 written.2
    let read := ReadFromStandby o 10 st
    let st := read.2
    match read.1 with
    | none => (false, Close (st.emit (Event.fatalf "データ読み取りエラー: %v" [Arg.errv])))
    | some data =>
      let consistencyCount := consistencyCountLoop baseTime data 0
      if consistencyCount < successCount then
        (false, Close (st.emit (Event.fatalf "データ整合性に問題: 書き込み成功=%d, 同期確認=%d"
          [Arg.d successCount, Arg.d consistencyCount])))
      else
        (true, Close (st.emit (Event.logf "✅ データ整合性テスト成功: 書き込み成功=%d, 同期確認=%d"
          [Arg.d successCount, Arg.d consistencyCount])))

/-- The summation loop of `calculateAverage`. -/
def sumLoop [Add F] : List F → F → F
  | [], sum => sum
  | v :: rest, sum => sumLoop rest (sum + v)

/-- The function `calculateAverage`. -/
def calculateAverage [Zero F] [Add F] [Div F] [NatCast F] (values : List F) : F :=
  if values.length = 0 then 0
  else sumLoop values 0 / (values.length : F)

end ReplicationTest

/-! ## `cmd/simple_demo` -/

namespace SimpleDemo

variable {F : Type}

/-- The host of the standby as `simpleDemo` computes it: the variable
`POSTGRES_STANDBY_HOST` with default "localhost", and "localhost" replaced by
"127.0.0.1". -/
def standbyHost (env : Env) : String :=
  let standbyHost := getEnv env "POSTGRES_STANDBY_HOST" "localhost"
  if standbyHost = "localhost" then "127.0.0.1" else standbyHost

/-- The port of the standby as `simpleDemo` computes it, a text. -/
def standbyPort (env : Env) : String :=
  getEnv env "POSTGRES_STANDBY_PORT" "5433"

/-- The connection string `standbyConnStr` of `simpleDemo`. -/
def standbyConnStr (env : Env) : String :=
  let dbUser := getEnv env "POSTGRES_USER" "postgres"
  let dbPassword := getEnv env "POSTGRES_PASSWORD" "password"
  let dbName := getEnv env "POSTGRES_DB" "testdb"
  "host=" ++ standbyHost env ++ " port=" ++ standbyPort env ++ " user=" ++ dbUser ++
    " password=" ++ dbPassword ++ " dbname=" ++ dbName ++ " sslmode=disable"

/-- The loop of `simpleDemo` over the latest rows: a scan error is printed and
the loop goes on. -/
def rowsLoop (rt : Runtime F) : List ScanResult → State F → State F
  | [], st => st
  | ScanResult.scanErr :: rest, st =>
    rowsLoop rt rest (st.emit (Event.printf "❌ データスキャンエラー: %v\n" [Arg.errv]))
  | ScanResult.row data :: rest, st =>
    rowsLoop rt rest (st.emit (Event.printf "     ID:%d | %s | %s\n"
      [Arg.d data.ID, Arg.s data.Data,
       Arg.s (rt.format "2006-01-02 15:04:05" data.CreatedAt)]))

/-- The function `simpleDemo`. `latest` is the answer to the query for the
newest row (`none` for an error). The deferred `standbyDB.Close()` runs at every
return after the connection was opened. -/
def simpleDemo (o : Outside) (rt : Runtime F) (latest : Option ReplicationData)
    (st : State F) : State F :=
  let st := st.emit (Event.println "🎯 シンプル読み書き分離テスト")
  let st := st.emit (Event.println "\n📖 スタンバイサーバーから読み取り...")
  let st := st.emit (Event.dbOpen (standbyConnStr o.env))
  if o.openErr then st.emit (Event.printf "❌ スタンバイ接続エラー: %v\n" [Arg.errv])
  else
    let before := o.count st.countCalls
    let countBefore := before.count
    let st : State F :=
      { st with countCalls := st.countCalls + 1,
                log := st.log ++ [Event.queryCount "SELECT count(*) FROM test_replication"] }
    if before.err then
      (st.emit (Event.printf "❌ データ件数取得エラー: %v\n" [Arg.errv])).emit Event.dbClose
    else
      let st := st.emit (Event.printf "   読み取り前のデータ件数: %d\n" [Arg.d countBefore])
      let rows := o.rows st.rowsCalls
      let st : State F :=
        { st with rowsCalls := st.rowsCalls + 1,
                  log := st.log ++ [Event.query ("SELECT id, data, created_at FROM " ++
                    "test_replication ORDER BY created_at DESC LIMIT 3")] }
      if rows.err then
        (st.emit (Event.printf "❌ データ取得エラー: %v\n" [Arg.errv])).emit Event.dbClose
      else
        let st := st.emit (Event.println "   最新データ:")
        let st := rowsLoop rt rows.rows st
        let st := st.emit (Event.println "\n📝 プライマリサーバーに書き込み...")
        let st := st.emit
          (Event.println "   注意: ローカルホスト接続に問題があるため、dockerコマンドを使用")
        let now := timeNow o st
        let testData := "Simple test at " ++ rt.format "2006-01-02T15:04:05" now.1
        let ran := CombinedOutput o ["docker", "exec", "postgres-primary", "psql", "-U",
          "postgres", "-d", "testdb", "-c",
          "INSERT INTO test_replication (data) VALUES ('" ++ testData ++ "');"] now.2
        let output := ran.1.output
        let st := ran.2
        if ran.1.err then
          ((st.emit (Event.printf "   ❌ 書き込み失敗: %v\n" [Arg.errv])).emit
            (Event.printf "   出力: %s\n" [Arg.s output])).emit Event.dbClose
        else if !Contains output "INSERT 0 1" then
          (st.emit (Event.printf "   ❌ 書き込み結果が不明: %s\n" [Arg.s output])).emit
            Event.dbClose
        else
          let st := st.emit (Event.printf "   ✅ 書き込み成功: '%s'\n" [Arg.s testData])
          let st := st.emit (Event.println "\n⏱️  レプリケーション待機中...")
          let st := timeSleep 2000 st
          let st := st.emit (Event.println "\n📖 スタンバイサーバーで同期確認...")
          let after := o.count st.countCalls
          let countAfter := after.count
          let st : State F :=
            { st with countCalls := st.countCalls + 1,
                      log := st.log ++
                        [Event.queryCount "SELECT count(*) FROM test_replication"] }
          if after.err then
            (st.emit (Event.printf "❌ データ件数取得エラー: %v\n" [Arg.errv])).emit Event.dbClose
          else
            let st := st.emit (Event.printf "   読み取り後のデータ件数: %d\n" [Arg.d countAfter])
            let st :=
              if countAfter > countBefore then
                let st := st.emit (Event.println "   ✅ データが正常に同期されました！")
                let st := st.emit (Event.query ("SELECT id, data, created_at FROM " ++
                  "test_replication ORDER BY created_at DESC LIMIT 1"))
                match latest with
                | none => st.emit (Event.printf "❌ 最新データ取得エラー: %v\n" [Arg.errv])
                | some row =>
                  st.emit (Event.printf "   最新データ: ID:%d | %s | %s\n"
                    [Arg.d row.ID, Arg.s row.Data,
                     Arg.s (rt.format "2006-01-02 15:04:05" row.CreatedAt)])
              else st.emit (Event.println "   ⚠️  データ同期に問題があります")
            let st := st.emit (Event.printf "\n🎉 読み書き分離テスト完了!\n" [])
            let st := st.emit (Event.printf "   書き込み前: %d件\n" [Arg.d countBefore])
            let st := st.emit (Event.printf "   書き込み後: %d件\n" [Arg.d countAfter])
            let st := st.emit (Event.printf "   増加分: %d件\n"
              [Arg.d (wrapInt (countAfter - countBefore))])
            st.emit Event.dbClose

/-- The program `simple_demo`. -/
def main (o : Outside) (rt : Runtime F) (latest : Option ReplicationData) :
    Termination × State F :=
  (Termination.returned, simpleDemo o rt latest (State.start F))

end SimpleDemo

/-! ## Decimal numerals, as the port variables are described -/

/-- Whether a character is one of the ASCII digits. -/
def isDigit (c : Char) : Bool :=
  decide ('0'.toNat ≤ c.toNat ∧ c.toNat ≤ '9'.toNat)

/-- The number a digit sequence denotes in base ten, continuing from `n`. -/
def digitsValue (ds : List Char) (n : Nat) : Nat :=
  ds.foldl (fun acc c => acc * 10 + (c.toNat - '0'.toNat)) n

/-- The text after an optional leading sign. -/
def numeralBody (s : String) : List Char :=
  match s.data with
  | [] => []
  | c :: cs => if c = '+' ∨ c = '-' then cs else c :: cs

/-- Whether the text starts with a minus sign. -/
def numeralNegative (s : String) : Bool :=
  match s.data with
  | [] => false
  | c :: _ => decide (c = '-')

/-- A decimal numeral: an optional sign followed by one or more digits. -/
def isDecimalNumeral (s : String) : Bool :=
  !(numeralBody s).isEmpty && (numeralBody s).all isDigit

/-- The integer a decimal numeral denotes. -/
def numeralValue (s : String) : Int :=
  if numeralNegative s then -((digitsValue (numeralBody s) 0 : Nat) : Int)
  else ((digitsValue (numeralBody s) 0 : Nat) : Int)

/-- The digits at the start of the text after the sign. -/
def leadingDigits (s : String) : List Char :=
  (numeralBody s).takeWhile isDigit

/-! ## Sample inputs -/

/-- An environment in which `POSTGRES_USER` is set to the empty string and
nothing else is set. -/
def envEmptyUser : Env :=
  fun key => if key = "POSTGRES_USER" then some "" else none

/-- A runtime over the rationals: `ParseFloat` reads nothing, times are
formatted as a fixed text. -/
def sampleRuntime : Runtime ℚ :=
  { parseFloat := fun _ => none,
    lowerTable := fun c => c,
    format := fun _ _ => "20240101_000000",
    seconds := fun _ => 0 }

/-- An outside world in which every call succeeds with empty answers. -/
def outsideQuiet : Outside :=
  { env := fun _ => none,
    openErr := false,
    pingErr := false,
    cmd := fun _ => { output := "", err := false },
    rows := fun _ => { err := false, rows := [] },
    count := fun _ => { count := 0, err := false },
    clock := fun _ => 0 }

/-- An outside world in which the standby connection cannot be opened. -/
def outsideOpenFails : Outside :=
  { outsideQuiet with openErr := true }

/-- An outside world in which every count query fails. -/
def outsideCountFails : Outside :=
  { outsideQuiet with count := fun _ => { count := 0, err := true } }

/-- A runtime over the rationals in which `ParseFloat` reads the text "0.5". -/
def sampleRuntimeHalf : Runtime ℚ :=
  { sampleRuntime with parseFloat := fun s => if s = "0.5" then some (1 / 2) else none }

/-- An outside world in which every subprocess prints what `psql` prints for an
`INSERT ... RETURNING id, created_at` that created row 42. -/
def outsideInsert : Outside :=
  { outsideQuiet with
    cmd := fun _ =>
      { output := " id |         created_at\n----+---------------------\n" ++
          " 42 | 2024-01-01 00:00:00\n(1 row)\n\nINSERT 0 1\n",
        err := false } }

/-- An outside world in which every subprocess prints what `psql` prints for
the status query with one streaming standby whose lag is 0.5 seconds. -/
def outsideStreaming : Outside :=
  { outsideQuiet with
    cmd := fun _ =>
      { output := " client_addr |   state   | sent_lsn  | write_lsn | flush_lsn | " ++
          "replay_lsn | lag_seconds\n-------------+-----------+-----------\n" ++
          " 172.18.0.3  | streaming | 0/3000148 | 0/3000148 | 0/3000148 | 0/3000148  | 0.5\n" ++
          "(1 row)\n",
        err := false } }

/-- An outside world in which every subprocess prints the bare number 0.5, as
`psql -t` does for the lag query of the test file. -/
def outsideLag : Outside :=
  { outsideQuiet with cmd := fun _ => { output := "        0.5\n\n", err := false } }

/-- A server that answers every call of `testConnection`, with a version text
of more than 60 bytes. -/
def serverUp : ConnectionCheck.Server :=
  { openErr := false, pingErr := false, closeErr := false,
    version := some ("PostgreSQL 15.4 on x86_64-pc-linux-gnu, compiled by gcc " ++
      "(GCC) 12.2.0, 64-bit"),
    count := some 3, isRecovery := some false }

/-- A server that cannot be pinged. -/
def serverDown : ConnectionCheck.Server :=
  { serverUp with pingErr := true }

/-- A server that answers every call, with a version text of 15 bytes. -/
def serverShortVersion : ConnectionCheck.Server :=
  { serverUp with version := some "PostgreSQL 15.4" }

/-- An environment in which `POSTGRES_PRIMARY_PORT` is a numeral of twenty
digits and `POSTGRES_STANDBY_PORT` is the same digits followed by a letter. -/
def envHugePorts : Env :=
  fun key =>
    if key = "POSTGRES_PRIMARY_PORT" then some "99999999999999999999"
    else if key = "POSTGRES_STANDBY_PORT" then some "99999999999999999999x"
    else none

/-- An environment in which `POSTGRES_PRIMARY_PORT` is "6543" and
`POSTGRES_STANDBY_PORT` is "abc". -/
def envPorts : Env :=
  fun key =>
    if key = "POSTGRES_PRIMARY_PORT" then some "6543"
    else if key = "POSTGRES_STANDBY_PORT" then some "abc"
    else none

/-- An environment in which `POSTGRES_STANDBY_HOST` is "LOCALHOST" and
`POSTGRES_STANDBY_PORT` is "6543". -/
def envUpperHost : Env :=
  fun key =>
    if key = "POSTGRES_STANDBY_HOST" then some "LOCALHOST"
    else if key = "POSTGRES_STANDBY_PORT" then some "6543"
    else none

/-! ## Properties: configuration -/

/-- C1, as stated, fails: in an environment where `POSTGRES_USER` exists with
the empty value, `getEnv` returns the default `"postgres"` and not the value of
the variable. -/
theorem getEnv_existing_empty_variable :
    envEmptyUser "POSTGRES_USER" = some "" ∧
    getEnv envEmptyUser "POSTGRES_USER" "postgres" = "postgres" ∧
    getEnv envEmptyUser "POSTGRES_USER" "postgres" ≠ "" := by
  decide

/-- C1 (amended): `getEnv` returns the value of the variable when the variable
exists with a non-empty value, and the default value when the variable does not
exist or exists with the empty value. -/
theorem getEnv_eq (env : Env) (key defaultValue : String) :
    getEnv env key defaultValue =
      match env key with
      | some v => if v = "" then defaultValue else v
      | none => defaultValue := by
  unfold getEnv Getenv
  cases h : env key with
  | none => simp
  | some v => by_cases hv : v = "" <;> simp [hv]

/-! ## Properties: `connection_check` -/

/-- C2: `connection_check` exits with status 0 exactly when `testConnection`
returned true for the primary and for the standby, and with status 1 exactly
when both calls returned and at least one of them returned false. -/
theorem ConnectionCheck.connection_check_exit_status (env : Env) (connect : String → ConnectionCheck.Server) :
    (exitStatus (ConnectionCheck.main env connect).1 = 0 ↔
      (ConnectionCheck.primaryTest env connect).1 = some true ∧
      (ConnectionCheck.standbyTest env connect).1 = some true) ∧
    (exitStatus (ConnectionCheck.main env connect).1 = 1 ↔
      ∃ primaryOK standbyOK,
        (ConnectionCheck.primaryTest env connect).1 = some primaryOK ∧
        (ConnectionCheck.standbyTest env connect).1 = some standbyOK ∧
        (primaryOK = false ∨ standbyOK = false)) := by
  unfold ConnectionCheck.main
  rcases hp : ConnectionCheck.primaryTest env connect with ⟨_ | _ | _, lp⟩ <;>
  rcases hs : ConnectionCheck.standbyTest env connect with ⟨_ | _ | _, ls⟩ <;>
  simp [exitStatus]

/-! ## Properties: the arithmetic mean -/

/-- The loop of `average` adds the values to the accumulator from left to right. -/
theorem ReplicationDemo.sumLoop_eq_foldl {F : Type} [Add F] (values : List F) (sum : F) :
    ReplicationDemo.sumLoop values sum = values.foldl (fun acc v => acc + v) sum := by
  induction values generalizing sum with
  | nil => rfl
  | cons v rest ih => simp [ReplicationDemo.sumLoop, ih]

/-- The loop of `calculateAverage` adds the values to the accumulator from left to right. -/
theorem ReplicationTest.calculateAverage_sumLoop_eq_foldl {F : Type} [Add F] (values : List F) (sum : F) :
    ReplicationTest.sumLoop values sum = values.foldl (fun acc v => acc + v) sum := by
  induction values generalizing sum with
  | nil => rfl
  | cons v rest ih => simp [ReplicationTest.sumLoop, ih]

/-- C3: `average` and `calculateAverage` return 0 on the empty list and otherwise
the sum of the values, accumulated from left to right starting at 0, divided by
the number of values; they agree on every list; and on a one-element list `[v]`
they return `v`, for every `v` that adding to 0 and dividing by 1 leave unchanged. -/
theorem average_eq_mean {F : Type} [Zero F] [Add F] [Div F] [NatCast F]
    (values : List F) (v : F) (h0 : (0 : F) + v = v) (h1 : v / ((1 : Nat) : F) = v) :
    ReplicationDemo.average ([] : List F) = 0 ∧
    ReplicationTest.calculateAverage ([] : List F) = 0 ∧
    ReplicationDemo.average values =
      (if values.isEmpty then 0
       else values.foldl (fun acc x => acc + x) 0 / ((values.length : Nat) : F)) ∧
    ReplicationTest.calculateAverage values = ReplicationDemo.average values ∧
    ReplicationDemo.average [v] = v ∧
    ReplicationTest.calculateAverage [v] = v := by
  refine ⟨rfl, rfl, ?_, ?_, ?_, ?_⟩
  · cases values with
    | nil => rfl
    | cons x rest =>
      simp [ReplicationDemo.average, ReplicationDemo.sumLoop_eq_foldl]
  · simp [ReplicationDemo.average, ReplicationTest.calculateAverage,
      ReplicationDemo.sumLoop_eq_foldl, ReplicationTest.calculateAverage_sumLoop_eq_foldl]
  · simp only [ReplicationDemo.average, ReplicationDemo.sumLoop, List.length_singleton,
      Nat.one_ne_zero, if_false, h0, h1]
  · simp only [ReplicationTest.calculateAverage, ReplicationTest.sumLoop,
      List.length_singleton, Nat.one_ne_zero, if_false, h0, h1]

/-- C3 at a concrete input: over the rationals, the list `[1, 2, 4]` and the
single value `5/2`. -/
theorem average_eq_mean_witness :
    ((0 : ℚ) + 5 / 2 = 5 / 2 ∧ (5 / 2 : ℚ) / ((1 : Nat) : ℚ) = 5 / 2) ∧
    (ReplicationDemo.average ([] : List ℚ) = 0 ∧
     ReplicationTest.calculateAverage ([] : List ℚ) = 0 ∧
     ReplicationDemo.average [(1 : ℚ), 2, 4] =
       (if [(1 : ℚ), 2, 4].isEmpty then 0
        else [(1 : ℚ), 2, 4].foldl (fun acc x => acc + x) 0 /
          (([(1 : ℚ), 2, 4].length : Nat) : ℚ)) ∧
     ReplicationTest.calculateAverage [(1 : ℚ), 2, 4] = ReplicationDemo.average [(1 : ℚ), 2, 4] ∧
     ReplicationDemo.average [(5 / 2 : ℚ)] = 5 / 2 ∧
     ReplicationTest.calculateAverage [(5 / 2 : ℚ)] = 5 / 2) :=
  ⟨⟨by norm_num, by norm_num⟩, average_eq_mean [1, 2, 4] (5 / 2) (by norm_num) (by norm_num)⟩

/-! ## Lemmas on the string functions -/

/-- A list contains the one-character list `[sep]` exactly when `sep` occurs in it. -/
theorem containsChars_singleton (sep : Char) (l : List Char) :
    containsChars l [sep] = true ↔ sep ∈ l := by
  induction l with
  | nil => simp [containsChars]
  | cons c cs ih =>
    simp only [containsChars, Bool.or_eq_true, ih, List.mem_cons]
    have : List.isPrefixOf [sep] (c :: cs) = true ↔ sep = c := by
      simp [List.isPrefixOf]
    rw [this]

/-- Splitting never gives the empty list. -/
theorem splitChars_ne_nil (sep : Char) (l : List Char) : splitChars sep l ≠ [] := by
  cases l with
  | nil => simp [splitChars]
  | cons c cs =>
    unfold splitChars
    split
    · simp
    · split <;> simp

/-- A list in which the separator occurs splits into at least two parts. -/
theorem splitChars_length_of_mem (sep : Char) (l : List Char) (h : sep ∈ l) :
    2 ≤ (splitChars sep l).length := by
  induction l with
  | nil => simp at h
  | cons c cs ih =>
    unfold splitChars
    by_cases hc : c = sep
    · simp only [hc, if_true, List.length_cons]
      have := splitChars_ne_nil sep cs
      have : 0 < (splitChars sep cs).length := List.length_pos.mpr this
      omega
    · simp only [hc, if_false]
      have hmem : sep ∈ cs := by
        rcases List.mem_cons.mp h with h1 | h1
        · exact absurd h1.symm hc
        · exact h1
      have := ih hmem
      cases hsp : splitChars sep cs with
      | nil => simp [hsp] at this
      | cons p ps => simpa [hsp] using this

/-- The first part of a split is the text before the first separator. -/
theorem splitChars_head (sep : Char) (l : List Char) :
    (splitChars sep l).head? = some (l.takeWhile (fun c => c != sep)) := by
  induction l with
  | nil => simp [splitChars]
  | cons c cs ih =>
    unfold splitChars
    by_cases hc : c = sep
    · simp [hc]
    · simp only [hc, if_false]
      cases hsp : splitChars sep cs with
      | nil => exact absurd hsp (splitChars_ne_nil sep cs)
      | cons p ps =>
        rw [hsp] at ih
        simp only [List.head?_cons, Option.some.injEq] at ih
        simp [hc, ih]

/-- A line that contains a vertical bar splits on it into at least two fields. -/
theorem Split_length_of_Contains (line : String) (h : Contains line "|" = true) :
    2 ≤ (Split line '|').length := by
  have hmem : '|' ∈ line.data := (containsChars_singleton '|' line.data).mp h
  simpa [Split] using splitChars_length_of_mem '|' line.data hmem

/-- What `dropWhile` leaves starts with an element that fails the test. -/
theorem dropWhile_head_false {α : Type} (p : α → Bool) (l : List α) (a : α) (t : List α)
    (h : l.dropWhile p = a :: t) : p a = false := by
  induction l with
  | nil => simp at h
  | cons x xs ih =>
    by_cases hx : p x = true
    · rw [List.dropWhile_cons_of_pos hx] at h
      exact ih h
    · rw [List.dropWhile_cons_of_neg hx] at h
      simp only [List.cons.injEq] at h
      rw [← h.1]
      simpa using hx

/-- A trimmed string is never the string of one blank. -/
theorem TrimSpace_ne_blank (s : String) : TrimSpace s ≠ " " := by
  intro h
  have hdata : ((s.data.dropWhile isSpace).reverse.dropWhile isSpace).reverse = [' '] := by
    have := congrArg String.data h
    simpa [TrimSpace] using this
  have hrev : (s.data.dropWhile isSpace).reverse.dropWhile isSpace = [' '] := by
    have := congrArg List.reverse hdata
    simpa using this
  have := dropWhile_head_false isSpace _ _ _ hrev
  exact absurd this (by decide)

/-! ## Properties: the subprocess helpers of `replication_demo` -/

/-- The loop of `WriteToPrimary` finds the first line with a vertical bar and
without "id" in its lower-cased text, and gives its trimmed first field. -/
theorem ReplicationDemo.writeLoop_eq_find {F : Type} (rt : Runtime F) (lines : List String) :
    ReplicationDemo.writeLoop rt lines =
      (lines.find? (fun line =>
        Contains line "|" && !Contains (ToLower rt.lowerTable line) "id")).map
        (fun line => TrimSpace ((Split line '|').headD "")) := by
  induction lines with
  | nil => rfl
  | cons line rest ih =>
    unfold ReplicationDemo.writeLoop
    by_cases hq : (Contains line "|" && !Contains (ToLower rt.lowerTable line) "id") = true
    · have hbar : Contains line "|" = true := by
        simp only [Bool.and_eq_true] at hq
        exact hq.1
      have hlen := Split_length_of_Contains line hbar
      simp only [hq, List.find?_cons, ge_iff_le, hlen, if_true, Option.map_some']
      congr 2
      cases Split line '|' <;> rfl
    · have hq' : (Contains line "|" && !Contains (ToLower rt.lowerTable line) "id") = false := by
        simpa using hq
      simp only [hq', List.find?_cons, ih]
      simp

/-- C4: `WriteToPrimary` returns false exactly when the subprocess returned an
error, whatever its output. It makes one `docker exec` call and prints one line:
the failure line on an error; otherwise the success line with the row ID, which
is the trimmed first field (split on the vertical bar) of the first line of the
trimmed output that contains a vertical bar and whose lower-cased text does not
contain "id"; and the success line without an ID when no line qualifies. -/
theorem ReplicationDemo.WriteToPrimary_spec {F : Type} (o : Outside) (rt : Runtime F)
    (dataText : String) (st : State F) :
    ((ReplicationDemo.WriteToPrimary o rt dataText st).1 = false ↔
      (o.cmd st.cmdCalls).err = true) ∧
    (ReplicationDemo.WriteToPrimary o rt dataText st).2 =
      { st with
        cmdCalls := st.cmdCalls + 1,
        log := st.log ++
          [Event.exec (ReplicationDemo.psqlArgv
            ("INSERT INTO test_replication (data) VALUES ('" ++ dataText ++
              "') RETURNING id, created_at;")),
           if (o.cmd st.cmdCalls).err then Event.printf "❌ 書き込み失敗: %v\n" [Arg.errv]
           else
             match (Split (TrimSpace (o.cmd st.cmdCalls).output) '\n').find? (fun line =>
               Contains line "|" && !Contains (ToLower rt.lowerTable line) "id") with
             | some line =>
               Event.printf "📝 プライマリに書き込み成功: ID=%s, データ='%s'\n"
                 [Arg.s (TrimSpace ((Split line '|').headD "")), Arg.s dataText]
             | none =>
               Event.printf "📝 プライマリに書き込み成功: データ='%s'\n" [Arg.s dataText]] } := by
  unfold ReplicationDemo.WriteToPrimary CombinedOutput
  simp only [ReplicationDemo.writeLoop_eq_find, State.emit]
  cases herr : (o.cmd st.cmdCalls).err
  · cases hfind : (Split (TrimSpace (o.cmd st.cmdCalls).output) '\n').find? (fun line =>
        Contains line "|" && !Contains (ToLower rt.lowerTable line) "id") <;>
      simp [herr, hfind]
  · simp [herr]

/-- The loop of `GetReplicationStatus` finds the first line that contains
"streaming" and has at least seven fields; the lag is the parsed seventh field,
0 when that field is empty after trimming or does not parse. -/
theorem ReplicationDemo.statusLoop_eq_find {F : Type} [Zero F] (rt : Runtime F)
    (lines : List String) :
    ReplicationDemo.statusLoop rt lines =
      (lines.find? (fun line =>
        Contains line "streaming" && decide ((Split line '|').length ≥ 7))).map
        (fun line =>
          (TrimSpace ((Split line '|').getD 0 ""), TrimSpace ((Split line '|').getD 1 ""),
            if TrimSpace ((Split line '|').getD 6 "") = "" then (0 : F)
            else
              match rt.parseFloat (TrimSpace ((Split line '|').getD 6 "")) with
              | some parsed => parsed
              | none => 0)) := by
  induction lines with
  | nil => rfl
  | cons line rest ih =>
    unfold ReplicationDemo.statusLoop
    by_cases hs : Contains line "streaming" = true
    · by_cases hl : (Split line '|').length ≥ 7
      · have hb := TrimSpace_ne_blank ((Split line '|')[6]?.getD "")
        by_cases he : TrimSpace ((Split line '|')[6]?.getD "") = ""
        · simp [hs, hl, List.find?_cons, he]
        · simp [hs, hl, List.find?_cons, he, hb]
      · simp [hs, hl, List.find?_cons, ih]
    · have hs' : Contains line "streaming" = false := by simpa using hs
      simp [hs', List.find?_cons, ih]

/-- C5: `GetReplicationStatus` returns nil exactly when the subprocess returned
an error. Otherwise it returns a pointer to: the float parsed from the trimmed
seventh field of the first line of the trimmed output that contains "streaming"
and splits on the vertical bar into at least seven fields, or 0 when that field
is empty or does not parse; and 0 when no line qualifies. -/
theorem ReplicationDemo.GetReplicationStatus_spec {F : Type} [Zero F] (o : Outside)
    (rt : Runtime F) (st : State F) :
    ((ReplicationDemo.GetReplicationStatus o rt st).1 = none ↔
      (o.cmd st.cmdCalls).err = true) ∧
    (ReplicationDemo.GetReplicationStatus o rt st).1 =
      if (o.cmd st.cmdCalls).err then none
      else
        match (Split (TrimSpace (o.cmd st.cmdCalls).output) '\n').find? (fun line =>
          Contains line "streaming" && decide ((Split line '|').length ≥ 7)) with
        | some line =>
          if TrimSpace ((Split line '|').getD 6 "") = "" then some (0 : F)
          else
            match rt.parseFloat (TrimSpace ((Split line '|').getD 6 "")) with
            | some parsed => some parsed
            | none => some 0
        | none => some 0 := by
  unfold ReplicationDemo.GetReplicationStatus CombinedOutput
  simp only [ReplicationDemo.statusLoop_eq_find]
  cases herr : (o.cmd st.cmdCalls).err
  · cases hfind : (Split (TrimSpace (o.cmd st.cmdCalls).output) '\n').find? (fun line =>
        Contains line "streaming" && decide ((Split line '|').length ≥ 7)) with
    | none => simp [herr, hfind]
    | some line =>
      by_cases he : TrimSpace ((Split line '|')[6]?.getD "") = ""
      · simp [herr, hfind, he]
      · cases hp : rt.parseFloat (TrimSpace ((Split line '|')[6]?.getD "")) <;>
          simp [herr, hfind, he, hp]
  · simp [herr]

/-! ## Lemmas on the state passed through the routines -/

section StateLemmas

variable {F : Type}

@[simp] theorem State.calls_emit_of_call (st : State F) (e : Event F) (h : e.isCall = true) :
    (st.emit e).calls = st.calls ++ [e] := by
  simp [State.calls, State.emit, List.filter_cons, h]

@[simp] theorem State.calls_emit_println (st : State F) (text : String) :
    (st.emit (Event.println text)).calls = st.calls := by
  simp [State.calls, State.emit, Event.isCall]

@[simp] theorem State.calls_emit_printf (st : State F) (format : String) (args : List (Arg F)) :
    (st.emit (Event.printf format args)).calls = st.calls := by
  simp [State.calls, State.emit, Event.isCall]

@[simp] theorem State.calls_emit_logf (st : State F) (format : String) (args : List (Arg F)) :
    (st.emit (Event.logf format args)).calls = st.calls := by
  simp [State.calls, State.emit, Event.isCall]

@[simp] theorem State.calls_emit_fatalf (st : State F) (format : String) (args : List (Arg F)) :
    (st.emit (Event.fatalf format args)).calls = st.calls := by
  simp [State.calls, State.emit, Event.isCall]

@[simp] theorem State.emit_cmdCalls (st : State F) (e : Event F) :
    (st.emit e).cmdCalls = st.cmdCalls := rfl

@[simp] theorem State.emit_rowsCalls (st : State F) (e : Event F) :
    (st.emit e).rowsCalls = st.rowsCalls := rfl

@[simp] theorem State.emit_countCalls (st : State F) (e : Event F) :
    (st.emit e).countCalls = st.countCalls := rfl

@[simp] theorem State.emit_clockReads (st : State F) (e : Event F) :
    (st.emit e).clockReads = st.clockReads := rfl

@[simp] theorem timeSleep_calls (millis : Nat) (st : State F) :
    (timeSleep millis st).calls = st.calls ++ [Event.sleep millis] := by
  simp [timeSleep, Event.isCall]

@[simp] theorem timeSleep_cmdCalls (millis : Nat) (st : State F) :
    (timeSleep millis st).cmdCalls = st.cmdCalls := rfl

@[simp] theorem timeSleep_rowsCalls (millis : Nat) (st : State F) :
    (timeSleep millis st).rowsCalls = st.rowsCalls := rfl

@[simp] theorem timeSleep_countCalls (millis : Nat) (st : State F) :
    (timeSleep millis st).countCalls = st.countCalls := rfl

@[simp] theorem timeSleep_clockReads (millis : Nat) (st : State F) :
    (timeSleep millis st).clockReads = st.clockReads := rfl

@[simp] theorem timeNow_fst (o : Outside) (st : State F) :
    (timeNow o st).1 = o.clock st.clockReads := rfl

@[simp] theorem timeNow_calls (o : Outside) (st : State F) :
    (timeNow o st).2.calls = st.calls := rfl

@[simp] theorem timeNow_cmdCalls (o : Outside) (st : State F) :
    (timeNow o st).2.cmdCalls = st.cmdCalls := rfl

@[simp] theorem timeNow_rowsCalls (o : Outside) (st : State F) :
    (timeNow o st).2.rowsCalls = st.rowsCalls := rfl

@[simp] theorem timeNow_countCalls (o : Outside) (st : State F) :
    (timeNow o st).2.countCalls = st.countCalls := rfl

@[simp] theorem timeNow_clockReads (o : Outside) (st : State F) :
    (timeNow o st).2.clockReads = st.clockReads + 1 := rfl

end StateLemmas

/-! ## Lemmas on the database helpers of `replication_demo` -/

namespace ReplicationDemo

section Helpers

variable {F : Type}

@[simp] theorem WriteToPrimary_fst (o : Outside) (rt : Runtime F) (dataText : String)
    (st : State F) :
    (WriteToPrimary o rt dataText st).1 = !(o.cmd st.cmdCalls).err := by
  unfold WriteToPrimary CombinedOutput
  cases herr : (o.cmd st.cmdCalls).err
  · simp only [herr, Bool.false_eq_true, if_false]
    split <;> simp
  · simp [herr]

/-- The state after `WriteToPrimary`: one more subprocess call, one more call
in the log, nothing else touched. -/
theorem WriteToPrimary_snd (o : Outside) (rt : Runtime F) (dataText : String) (st : State F) :
    (WriteToPrimary o rt dataText st).2.cmdCalls = st.cmdCalls + 1 ∧
    (WriteToPrimary o rt dataText st).2.rowsCalls = st.rowsCalls ∧
    (WriteToPrimary o rt dataText st).2.countCalls = st.countCalls ∧
    (WriteToPrimary o rt dataText st).2.clockReads = st.clockReads ∧
    (WriteToPrimary o rt dataText st).2.calls = st.calls ++
      [Event.exec (psqlArgv ("INSERT INTO test_replication (data) VALUES ('" ++ dataText ++
        "') RETURNING id, created_at;"))] := by
  unfold WriteToPrimary CombinedOutput
  cases herr : (o.cmd st.cmdCalls).err
  · simp only [herr, Bool.false_eq_true, if_false]
    split <;> simp [State.calls, State.emit, Event.isCall]
  · simp [herr, State.calls, State.emit, Event.isCall]

@[simp] theorem WriteToPrimary_cmdCalls (o : Outside) (rt : Runtime F) (dataText : String)
    (st : State F) : (WriteToPrimary o rt dataText st).2.cmdCalls = st.cmdCalls + 1 :=
  (WriteToPrimary_snd o rt dataText st).1

@[simp] theorem WriteToPrimary_rowsCalls (o : Outside) (rt : Runtime F) (dataText : String)
    (st : State F) : (WriteToPrimary o rt dataText st).2.rowsCalls = st.rowsCalls :=
  (WriteToPrimary_snd o rt dataText st).2.1

@[simp] theorem WriteToPrimary_countCalls (o : Outside) (rt : Runtime F) (dataText : String)
    (st : State F) : (WriteToPrimary o rt dataText st).2.countCalls = st.countCalls :=
  (WriteToPrimary_snd o rt dataText st).2.2.1

@[simp] theorem WriteToPrimary_clockReads (o : Outside) (rt : Runtime F) (dataText : String)
    (st : State F) : (WriteToPrimary o rt dataText st).2.clockReads = st.clockReads :=
  (WriteToPrimary_snd o rt dataText st).2.2.2.1

@[simp] theorem WriteToPrimary_calls (o : Outside) (rt : Runtime F) (dataText : String)
    (st : State F) :
    (WriteToPrimary o rt dataText st).2.calls = st.calls ++
      [Event.exec (psqlArgv ("INSERT INTO test_replication (data) VALUES ('" ++ dataText ++
        "') RETURNING id, created_at;"))] :=
  (WriteToPrimary_snd o rt dataText st).2.2.2.2

/-- The state after `GetReplicationStatus`: one more subprocess call, one more
call in the log, nothing else touched. -/
theorem GetReplicationStatus_snd [Zero F] (o : Outside) (rt : Runtime F) (st : State F) :
    (GetReplicationStatus o rt st).2.cmdCalls = st.cmdCalls + 1 ∧
    (GetReplicationStatus o rt st).2.rowsCalls = st.rowsCalls ∧
    (GetReplicationStatus o rt st).2.countCalls = st.countCalls ∧
    (GetReplicationStatus o rt st).2.clockReads = st.clockReads ∧
    (GetReplicationStatus o rt st).2.calls = st.calls ++ [Event.exec (psqlArgv statusQuery)] := by
  unfold GetReplicationStatus CombinedOutput
  cases herr : (o.cmd st.cmdCalls).err
  · simp only [herr, Bool.false_eq_true, if_false]
    split <;> simp [State.calls, State.emit, Event.isCall]
  · simp [herr, State.calls, State.emit, Event.isCall]

@[simp] theorem GetReplicationStatus_cmdCalls [Zero F] (o : Outside) (rt : Runtime F)
    (st : State F) : (GetReplicationStatus o rt st).2.cmdCalls = st.cmdCalls + 1 :=
  (GetReplicationStatus_snd o rt st).1

@[simp] theorem GetReplicationStatus_rowsCalls [Zero F] (o : Outside) (rt : Runtime F)
    (st : State F) : (GetReplicationStatus o rt st).2.rowsCalls = st.rowsCalls :=
  (GetReplicationStatus_snd o rt st).2.1

@[simp] theorem GetReplicationStatus_countCalls [Zero F] (o : Outside) (rt : Runtime F)
    (st : State F) : (GetReplicationStatus o rt st).2.countCalls = st.countCalls :=
  (GetReplicationStatus_snd o rt st).2.2.1

@[simp] theorem GetReplicationStatus_clockReads [Zero F] (o : Outside) (rt : Runtime F)
    (st : State F) : (GetReplicationStatus o rt st).2.clockReads = st.clockReads :=
  (GetReplicationStatus_snd o rt st).2.2.2.1

@[simp] theorem GetReplicationStatus_calls [Zero F] (o : Outside) (rt : Runtime F)
    (st : State F) :
    (GetReplicationStatus o rt st).2.calls = st.calls ++ [Event.exec (psqlArgv statusQuery)] :=
  (GetReplicationStatus_snd o rt st).2.2.2.2

@[simp] theorem ReadFromStandby_fst (o : Outside) (limit : Int) (st : State F) :
    (ReadFromStandby o limit st).1 =
      if (o.rows st.rowsCalls).err then none else scanLoop (o.rows st.rowsCalls).rows [] := by
  unfold ReadFromStandby
  cases herr : (o.rows st.rowsCalls).err
  · simp only [herr, Bool.false_eq_true, if_false]
    split <;> simp_all
  · simp [herr]

/-- The state after `ReadFromStandby`: one more rows query, one more call in
the log, nothing else touched. -/
theorem ReadFromStandby_snd (o : Outside) (limit : Int) (st : State F) :
    (ReadFromStandby o limit st).2.cmdCalls = st.cmdCalls ∧
    (ReadFromStandby o limit st).2.rowsCalls = st.rowsCalls + 1 ∧
    (ReadFromStandby o limit st).2.countCalls = st.countCalls ∧
    (ReadFromStandby o limit st).2.clockReads = st.clockReads ∧
    (ReadFromStandby o limit st).2.calls = st.calls ++
      [Event.queryRows
        "SELECT id, data, created_at FROM test_replication ORDER BY created_at DESC LIMIT $1"
        limit] := by
  unfold ReadFromStandby
  cases herr : (o.rows st.rowsCalls).err
  · simp only [herr, Bool.false_eq_true, if_false]
    split <;> simp [State.calls, State.emit, Event.isCall]
  · simp [herr, State.calls, Event.isCall]

@[simp] theorem ReadFromStandby_cmdCalls (o : Outside) (limit : Int) (st : State F) :
    (ReadFromStandby o limit st).2.cmdCalls = st.cmdCalls :=
  (ReadFromStandby_snd o limit st).1

@[simp] theorem ReadFromStandby_rowsCalls (o : Outside) (limit : Int) (st : State F) :
    (ReadFromStandby o limit st).2.rowsCalls = st.rowsCalls + 1 :=
  (ReadFromStandby_snd o limit st).2.1

@[simp] theorem ReadFromStandby_countCalls (o : Outside) (limit : Int) (st : State F) :
    (ReadFromStandby o limit st).2.countCalls = st.countCalls :=
  (ReadFromStandby_snd o limit st).2.2.1

@[simp] theorem ReadFromStandby_clockReads (o : Outside) (limit : Int) (st : State F) :
    (ReadFromStandby o limit st).2.clockReads = st.clockReads :=
  (ReadFromStandby_snd o limit st).2.2.2.1

@[simp] theorem ReadFromStandby_calls (o : Outside) (limit : Int) (st : State F) :
    (ReadFromStandby o limit st).2.calls = st.calls ++
      [Event.queryRows
        "SELECT id, data, created_at FROM test_replication ORDER BY created_at DESC LIMIT $1"
        limit] :=
  (ReadFromStandby_snd o limit st).2.2.2.2

@[simp] theorem GetDataCount_fst (o : Outside) (st : State F) :
    (GetDataCount o st).1 = o.count st.countCalls := rfl

@[simp] theorem GetDataCount_cmdCalls (o : Outside) (st : State F) :
    (GetDataCount o st).2.cmdCalls = st.cmdCalls := rfl

@[simp] theorem GetDataCount_rowsCalls (o : Outside) (st : State F) :
    (GetDataCount o st).2.rowsCalls = st.rowsCalls := rfl

@[simp] theorem GetDataCount_countCalls (o : Outside) (st : State F) :
    (GetDataCount o st).2.countCalls = st.countCalls + 1 := rfl

@[simp] theorem GetDataCount_clockReads (o : Outside) (st : State F) :
    (GetDataCount o st).2.clockReads = st.clockReads := rfl

@[simp] theorem GetDataCount_calls (o : Outside) (st : State F) :
    (GetDataCount o st).2.calls = st.calls ++
      [Event.queryCount "SELECT count(*) FROM test_replication"] := by
  simp [GetDataCount, State.calls, Event.isCall]

end Helpers

end ReplicationDemo

/-! ## Properties: the demo routines -/

/-- C10: `RunBasicDemo` returns false exactly when the initial count query, the
write to the primary, the standby read or the final count query fails. The calls
it makes to the outside are the sequence count, write, sleep, status, read,
count, cut after the first of the four that fails. When all four succeed and the
final count is not greater than the initial one, it still returns true and the
last line it prints is the warning. -/
theorem ReplicationDemo.RunBasicDemo_spec {F : Type} [Zero F] (o : Outside) (rt : Runtime F)
    (st : State F) :
    let initial := o.count st.countCalls
    let write := o.cmd st.cmdCalls
    let read := o.rows st.rowsCalls
    let final := o.count (st.countCalls + 1)
    let readFails : Bool := read.err || (ReplicationDemo.scanLoop read.rows []).isNone
    let steps : List (Event F) :=
      [Event.queryCount "SELECT count(*) FROM test_replication",
       Event.exec (ReplicationDemo.psqlArgv ("INSERT INTO test_replication (data) VALUES ('" ++
         ("Demo data at " ++ rt.format "2006-01-02 15:04:05" (o.clock st.clockReads)) ++
         "') RETURNING id, created_at;")),
       Event.sleep 1000,
       Event.exec (ReplicationDemo.psqlArgv ReplicationDemo.statusQuery),
       Event.queryRows
         "SELECT id, data, created_at FROM test_replication ORDER BY created_at DESC LIMIT $1" 5,
       Event.queryCount "SELECT count(*) FROM test_replication"]
    ((ReplicationDemo.RunBasicDemo o rt st).1 = false ↔
      initial.err = true ∨ write.err = true ∨ readFails = true ∨ final.err = true) ∧
    (ReplicationDemo.RunBasicDemo o rt st).2.calls = st.calls ++
      steps.take (if initial.err = true then 1 else if write.err = true then 2
        else if readFails = true then 5 else 6) ∧
    (¬ (initial.err = true ∨ write.err = true ∨ readFails = true ∨ final.err = true) →
      ¬ final.count > initial.count →
      (ReplicationDemo.RunBasicDemo o rt st).1 = true ∧
      (ReplicationDemo.RunBasicDemo o rt st).2.log.getLast? =
        some (Event.println "   ⚠️  データ同期に問題があります")) := by
  intro initial write read final readFails steps
  simp only [ReplicationDemo.RunBasicDemo]
  by_cases h1 : (o.count st.countCalls).err = true
  · simp [h1, initial, steps, Event.isCall]
  · by_cases h2 : (o.cmd st.cmdCalls).err = true
    · simp [h1, h2, initial, write, steps, Event.isCall]
    · by_cases h3 : (o.rows st.rowsCalls).err = true
      · simp [h1, h2, h3, initial, write, read, readFails, steps, Event.isCall]
      · cases h4 : ReplicationDemo.scanLoop (o.rows st.rowsCalls).rows [] with
        | none => simp [h1, h2, h3, h4, initial, write, read, readFails, steps, Event.isCall]
        | some rows =>
          by_cases h5 : (o.count (st.countCalls + 1)).err = true
          · simp [h1, h2, h3, h4, h5, initial, write, read, readFails, final, steps,
              Event.isCall]
          · by_cases h6 : (o.count (st.countCalls + 1)).count > (o.count st.countCalls).count
            · cases rows <;>
                simp [h1, h2, h3, h4, h5, h6, initial, write, read, readFails, final, steps,
                  Event.isCall]
            · refine ⟨?_, ?_, ?_⟩
              · simp [h1, h2, h3, h4, h5, h6, initial, write, read, readFails, final]
              · simp [h1, h2, h3, h4, h5, h6, initial, write, read, readFails, steps,
                  Event.isCall]
              · simp [h1, h2, h3, h4, h5, h6, State.emit]

/-- The function `main` of `replication_demo` returns on every path. -/
theorem ReplicationDemo.main_returns {F : Type} [Zero F] [Add F] [Div F] [NatCast F]
    (o : Outside) (rt : Runtime F) :
    (ReplicationDemo.main o rt).1 = Termination.returned := by
  unfold ReplicationDemo.main
  simp only []
  split
  · rfl
  · split <;> rfl

/-- C7, as stated, fails: when the standby connection cannot be opened,
`NewReplicationDemo` fails and the process still ends with status 0; when the
count query fails, `RunBasicDemo` returns false and the process still ends with
status 0. -/
theorem ReplicationDemo.main_failure_exits_zero :
    ((ReplicationDemo.NewReplicationDemo outsideOpenFails (State.start ℚ)).1 = false ∧
      exitStatus (ReplicationDemo.main outsideOpenFails sampleRuntime).1 = 0) ∧
    ((ReplicationDemo.NewReplicationDemo outsideCountFails (State.start ℚ)).1 = true ∧
      (ReplicationDemo.RunBasicDemo outsideCountFails sampleRuntime
        (((ReplicationDemo.NewReplicationDemo outsideCountFails (State.start ℚ)).2.emit
          (Event.println "🎯 PostgreSQL読み書き分離デモアプリケーション（Go版）")).emit
          (Event.println "🔗 Docker環境でのレプリケーション動作確認"))).1 = false ∧
      exitStatus (ReplicationDemo.main outsideCountFails sampleRuntime).1 = 0) := by
  refine ⟨⟨rfl, ?_⟩, rfl, ?_, ?_⟩
  · rw [ReplicationDemo.main_returns]; rfl
  · simp [ReplicationDemo.RunBasicDemo, outsideCountFails]
  · rw [ReplicationDemo.main_returns]; rfl

/-- C7 (amended): `replication_demo` sets no exit code: `main` returns in every
run, so the process ends with status 0 when initialisation fails, when
`RunBasicDemo` returns false and when the demo routines succeed. -/
theorem ReplicationDemo.replication_demo_exit_status {F : Type} [Zero F] [Add F] [Div F] [NatCast F]
    (o : Outside) (rt : Runtime F) :
    (ReplicationDemo.main o rt).1 = Termination.returned ∧
    exitStatus (ReplicationDemo.main o rt).1 = 0 := by
  have h := ReplicationDemo.main_returns o rt
  exact ⟨h, by rw [h]; rfl⟩

/-! ## Properties: the helpers and tests of `replication_test.go` -/

/-- The state after `NewTestDatabaseManager` has made no subprocess call, no
query and no clock reading. -/
theorem ReplicationTest.NewTestDatabaseManager_snd {F : Type} (o : Outside) (st : State F) :
    (ReplicationTest.NewTestDatabaseManager o st).2.cmdCalls = st.cmdCalls ∧
    (ReplicationTest.NewTestDatabaseManager o st).2.rowsCalls = st.rowsCalls ∧
    (ReplicationTest.NewTestDatabaseManager o st).2.countCalls = st.countCalls ∧
    (ReplicationTest.NewTestDatabaseManager o st).2.clockReads = st.clockReads := by
  unfold ReplicationTest.NewTestDatabaseManager
  simp only []
  split
  · simp
  · split <;> simp

/-- The result of `TestDatabaseManager.GetReplicationStatus` in terms of the
answer of the subprocess. -/
theorem ReplicationTest.TestDatabaseManager_GetReplicationStatus_fst {F : Type} [Zero F] [One F] [Neg F]
    (o : Outside) (rt : Runtime F) (st : State F) :
    (ReplicationTest.GetReplicationStatus o rt st).1 =
      if (o.cmd st.cmdCalls).err then (-1, true)
      else if TrimSpace (o.cmd st.cmdCalls).output = "" then (0, false)
      else
        match rt.parseFloat (TrimSpace (o.cmd st.cmdCalls).output) with
        | some lag => (lag, false)
        | none => (0, false) := by
  unfold ReplicationTest.GetReplicationStatus CombinedOutput
  cases herr : (o.cmd st.cmdCalls).err
  · by_cases he : TrimSpace (o.cmd st.cmdCalls).output = ""
    · simp [herr, he]
    · cases hp : rt.parseFloat (TrimSpace (o.cmd st.cmdCalls).output) <;>
        simp [herr, he, hp]
  · simp [herr]

/-- C8: `TestDatabaseManager.GetReplicationStatus` returns a non-nil error
exactly when the subprocess fails, with lag -1; when the subprocess succeeds it
returns a nil error and the float parsed from the trimmed output, or 0 when the
trimmed output is empty or does not parse. `TestReplicationLag`, once its
manager is created, passes exactly when that error is nil and the lag is not
greater than 10. -/
theorem ReplicationTest.TestDatabaseManager_GetReplicationStatus_spec {F : Type} [Zero F] [One F] [Neg F]
    [NatCast F] [LT F] [DecidableRel (fun (a b : F) => a < b)]
    (o : Outside) (rt : Runtime F) (st : State F) :
    ((ReplicationTest.GetReplicationStatus o rt st).1.2 = true ↔
      (o.cmd st.cmdCalls).err = true) ∧
    (ReplicationTest.GetReplicationStatus o rt st).1 =
      (if (o.cmd st.cmdCalls).err then (-1, true)
       else if TrimSpace (o.cmd st.cmdCalls).output = "" then (0, false)
       else
         match rt.parseFloat (TrimSpace (o.cmd st.cmdCalls).output) with
         | some lag => (lag, false)
         | none => (0, false)) ∧
    ((ReplicationTest.TestReplicationLag o rt st).1 = true ↔
      (ReplicationTest.NewTestDatabaseManager o st).1 = true ∧
      (ReplicationTest.GetReplicationStatus o rt
        (ReplicationTest.NewTestDatabaseManager o st).2).1.2 = false ∧
      ¬ ((10 : Nat) : F) < (ReplicationTest.GetReplicationStatus o rt
        (ReplicationTest.NewTestDatabaseManager o st).2).1.1) := by
  refine ⟨?_, ReplicationTest.TestDatabaseManager_GetReplicationStatus_fst o rt st, ?_⟩
  · rw [ReplicationTest.TestDatabaseManager_GetReplicationStatus_fst]
    cases herr : (o.cmd st.cmdCalls).err
    · by_cases he : TrimSpace (o.cmd st.cmdCalls).output = ""
      · simp [he]
      · cases hp : rt.parseFloat (TrimSpace (o.cmd st.cmdCalls).output) <;> simp [he, hp]
    · simp
  · unfold ReplicationTest.TestReplicationLag
    simp only []
    cases hc : (ReplicationTest.NewTestDatabaseManager o st).1
    · simp
    · cases he : (ReplicationTest.GetReplicationStatus o rt
          (ReplicationTest.NewTestDatabaseManager o st).2).1.2
      · by_cases hl : ((10 : Nat) : F) < (ReplicationTest.GetReplicationStatus o rt
            (ReplicationTest.NewTestDatabaseManager o st).2).1.1
        · simp [he, hl, -Nat.cast_ofNat]
        · simp [he, hl, -Nat.cast_ofNat]
      · simp [he]

/-- The loop of `TestDatabaseManager.WriteToPrimary` finds the first line whose
trimmed text parses as an integer greater than 0, and gives that integer. -/
theorem ReplicationTest.TestDatabaseManager_writeLoop_eq_find (lines : List String) :
    ReplicationTest.writeLoop lines =
      ((lines.map TrimSpace).find? (fun line =>
        decide ((Atoi line).2 = none ∧ (Atoi line).1 > 0))).map (fun line => (Atoi line).1) := by
  induction lines with
  | nil => rfl
  | cons line rest ih =>
    unfold ReplicationTest.writeLoop
    by_cases hq : (Atoi (TrimSpace line)).2 = none ∧ (Atoi (TrimSpace line)).1 > 0
    · simp [hq, List.find?_cons]
    · simp only [List.map_cons, List.find?_cons, hq, if_false, decide_False, ih]

/-- What the loop of `TestDatabaseManager.WriteToPrimary` finds is positive. -/
theorem ReplicationTest.TestDatabaseManager_writeLoop_pos (lines : List String) (id : Int)
    (h : ReplicationTest.writeLoop lines = some id) : 0 < id := by
  induction lines with
  | nil => simp [ReplicationTest.writeLoop] at h
  | cons line rest ih =>
    unfold ReplicationTest.writeLoop at h
    by_cases hq : (Atoi (TrimSpace line)).2 = none ∧ (Atoi (TrimSpace line)).1 > 0
    · simp only [hq, and_self, if_true, Option.some.injEq] at h
      rw [← h]
      exact hq.2
    · simp only [hq, if_false] at h
      exact ih h

/-- The result of `TestDatabaseManager.WriteToPrimary` in terms of the answer
of the subprocess. -/
theorem ReplicationTest.TestDatabaseManager_WriteToPrimary_fst {F : Type} (o : Outside) (dataText : String)
    (st : State F) :
    (ReplicationTest.WriteToPrimary o dataText st).1 =
      (if (o.cmd st.cmdCalls).err then (false, 0)
       else
         (true,
           match ReplicationTest.writeLoop
             (Split (TrimSpace (o.cmd st.cmdCalls).output) '\n') with
           | some id => id
           | none => 0)) := by
  unfold ReplicationTest.WriteToPrimary CombinedOutput
  cases herr : (o.cmd st.cmdCalls).err
  · simp only [herr, Bool.false_eq_true, if_false]
    split <;> simp_all
  · simp [herr]

/-- C9: `TestDatabaseManager.WriteToPrimary` returns (false, 0) when the
subprocess fails; when it succeeds it returns true with the integer value of the
first trimmed line of the trimmed output that parses as an integer greater than
0, and with 0 when no line does. The returned id is never negative, and it is 0
whenever the success flag is false. -/
theorem ReplicationTest.TestDatabaseManager_WriteToPrimary_spec {F : Type} (o : Outside) (dataText : String)
    (st : State F) :
    (ReplicationTest.WriteToPrimary o dataText st).1 =
      (if (o.cmd st.cmdCalls).err then (false, 0)
       else
         (true,
           match ((Split (TrimSpace (o.cmd st.cmdCalls).output) '\n').map TrimSpace).find?
             (fun line => decide ((Atoi line).2 = none ∧ (Atoi line).1 > 0)) with
           | some line => (Atoi line).1
           | none => 0)) ∧
    0 ≤ (ReplicationTest.WriteToPrimary o dataText st).1.2 ∧
    ((ReplicationTest.WriteToPrimary o dataText st).1.1 = false →
      (ReplicationTest.WriteToPrimary o dataText st).1.2 = 0) := by
  rw [ReplicationTest.TestDatabaseManager_WriteToPrimary_fst]
  cases herr : (o.cmd st.cmdCalls).err
  · simp only [Bool.false_eq_true, if_false]
    have hfind := ReplicationTest.TestDatabaseManager_writeLoop_eq_find
      (Split (TrimSpace (o.cmd st.cmdCalls).output) '\n')
    cases hloop : ReplicationTest.writeLoop
        (Split (TrimSpace (o.cmd st.cmdCalls).output) '\n') with
    | none =>
      rw [hloop] at hfind
      cases hf : ((Split (TrimSpace (o.cmd st.cmdCalls).output) '\n').map TrimSpace).find?
          (fun line => decide ((Atoi line).2 = none ∧ (Atoi line).1 > 0)) with
      | none => simp
      | some line => rw [hf] at hfind; simp at hfind
    | some id =>
      have hpos := ReplicationTest.TestDatabaseManager_writeLoop_pos _ id hloop
      rw [hloop] at hfind
      cases hf : ((Split (TrimSpace (o.cmd st.cmdCalls).output) '\n').map TrimSpace).find?
          (fun line => decide ((Atoi line).2 = none ∧ (Atoi line).1 > 0)) with
      | none => rw [hf] at hfind; simp at hfind
      | some line =>
        rw [hf] at hfind
        simp only [Option.map_some', Option.some.injEq] at hfind
        refine ⟨?_, ?_, ?_⟩
        · simp [hfind]
        · exact le_of_lt hpos
        · simp
  · simp

/-- C9 at a concrete input: the subprocess fails, so the flag is false and the
id is 0. -/
theorem ReplicationTest.TestDatabaseManager_WriteToPrimary_spec_witness :
    (ReplicationTest.WriteToPrimary
      { outsideQuiet with cmd := fun _ => { output := "42", err := true } } "x"
      (State.start ℚ)).1.1 = false ∧
    (ReplicationTest.WriteToPrimary
      { outsideQuiet with cmd := fun _ => { output := "42", err := true } } "x"
      (State.start ℚ)).1.2 = 0 :=
  ⟨rfl, (ReplicationTest.TestDatabaseManager_WriteToPrimary_spec
    { outsideQuiet with cmd := fun _ => { output := "42", err := true } } "x"
    (State.start ℚ)).2.2 rfl⟩

/-! ## Properties: the consistency check -/

/-- Counting over `range (n + 1)` is counting the index 0 and then the shifted rest. -/
theorem countP_range_succ (p : Nat → Bool) (n : Nat) :
    (List.range (n + 1)).countP p =
      (if p 0 then 1 else 0) + (List.range n).countP (fun k => p (k + 1)) := by
  rw [List.range_succ_eq_map, List.countP_cons, List.countP_map]
  have : (p ∘ Nat.succ) = fun k => p (k + 1) := rfl
  rw [this]
  omega

/-- The write loop of `RunDataConsistencyCheck` adds to the counter the number
of its `n` subprocess calls that returned no error, and touches nothing but the
subprocess counter and the log. -/
theorem ReplicationDemo.consistencyWriteLoop_spec {F : Type} (o : Outside) (rt : Runtime F)
    (baseTime : String) (n : Nat) (i successCount : Int) (st : State F) :
    (ReplicationDemo.consistencyWriteLoop o rt baseTime n i successCount st).1 =
      successCount + ((List.range n).countP (fun k => !(o.cmd (st.cmdCalls + k)).err) : Nat) ∧
    (ReplicationDemo.consistencyWriteLoop o rt baseTime n i successCount st).2.cmdCalls =
      st.cmdCalls + n ∧
    (ReplicationDemo.consistencyWriteLoop o rt baseTime n i successCount st).2.rowsCalls =
      st.rowsCalls ∧
    (ReplicationDemo.consistencyWriteLoop o rt baseTime n i successCount st).2.countCalls =
      st.countCalls ∧
    (ReplicationDemo.consistencyWriteLoop o rt baseTime n i successCount st).2.clockReads =
      st.clockReads := by
  induction n generalizing i successCount st with
  | zero => simp [ReplicationDemo.consistencyWriteLoop]
  | succ n ih =>
    unfold ReplicationDemo.consistencyWriteLoop
    simp only [ReplicationDemo.WriteToPrimary_fst]
    rw [countP_range_succ]
    cases herr : (o.cmd st.cmdCalls).err
    · simp only [Bool.not_false, if_true]
      obtain ⟨h1, h2, h3, h4, h5⟩ := ih (i + 1) (successCount + 1)
        (timeSleep 300 ((ReplicationDemo.WriteToPrimary o rt
          ("Consistency test " ++ toString (i + 1) ++ " - " ++ baseTime) st).2.emit
          (Event.printf "   ✅ データ%d書き込み完了\n" [Arg.d (i + 1)])))
      simp only [timeSleep_cmdCalls, State.emit_cmdCalls, ReplicationDemo.WriteToPrimary_cmdCalls,
        timeSleep_rowsCalls, State.emit_rowsCalls, ReplicationDemo.WriteToPrimary_rowsCalls,
        timeSleep_countCalls, State.emit_countCalls, ReplicationDemo.WriteToPrimary_countCalls,
        timeSleep_clockReads, State.emit_clockReads, ReplicationDemo.WriteToPrimary_clockReads]
        at h1 h2 h3 h4 h5
      have hfun : (fun k => !(o.cmd (st.cmdCalls + 1 + k)).err) =
          (fun k => !(o.cmd (st.cmdCalls + (k + 1))).err) := by
        funext k
        rw [show st.cmdCalls + 1 + k = st.cmdCalls + (k + 1) by omega]
      rw [hfun] at h1
      refine ⟨?_, ?_, h3, h4, h5⟩
      · rw [h1]
        simp only [Nat.add_zero, herr, Bool.not_false, if_true]
        push_cast
        ring
      · rw [h2]; omega
    · simp only [Bool.not_true, Bool.false_eq_true, if_false]
      obtain ⟨h1, h2, h3, h4, h5⟩ := ih (i + 1) successCount
        (timeSleep 300 ((ReplicationDemo.WriteToPrimary o rt
          ("Consistency test " ++ toString (i + 1) ++ " - " ++ baseTime) st).2.emit
          (Event.printf "   ❌ データ%d書き込み失敗\n" [Arg.d (i + 1)])))
      simp only [timeSleep_cmdCalls, State.emit_cmdCalls, ReplicationDemo.WriteToPrimary_cmdCalls,
        timeSleep_rowsCalls, State.emit_rowsCalls, ReplicationDemo.WriteToPrimary_rowsCalls,
        timeSleep_countCalls, State.emit_countCalls, ReplicationDemo.WriteToPrimary_countCalls,
        timeSleep_clockReads, State.emit_clockReads, ReplicationDemo.WriteToPrimary_clockReads]
        at h1 h2 h3 h4 h5
      have hfun : (fun k => !(o.cmd (st.cmdCalls + 1 + k)).err) =
          (fun k => !(o.cmd (st.cmdCalls + (k + 1))).err) := by
        funext k
        rw [show st.cmdCalls + 1 + k = st.cmdCalls + (k + 1) by omega]
      rw [hfun] at h1
      refine ⟨?_, ?_, h3, h4, h5⟩
      · rw [h1]
        simp only [Nat.add_zero, herr, Bool.not_true, Bool.false_eq_true, if_false,
          Nat.zero_add]
      · rw [h2]; omega

/-- The counting loop of `RunDataConsistencyCheck` adds to the counter the number
of rows whose data contains the tag, and keeps the call counters. -/
theorem ReplicationDemo.consistencyCountLoop_spec {F : Type} (baseTime : String)
    (rows : List ReplicationData) (consistencyCount : Int) (st : State F) :
    (ReplicationDemo.consistencyCountLoop baseTime rows consistencyCount st).1 =
      consistencyCount + (rows.countP (fun row => Contains row.Data baseTime) : Nat) := by
  induction rows generalizing consistencyCount st with
  | nil => simp [ReplicationDemo.consistencyCountLoop]
  | cons row rest ih =>
    unfold ReplicationDemo.consistencyCountLoop
    by_cases h : Contains row.Data baseTime = true
    · simp only [h, if_true, ih]
      rw [List.countP_cons_of_pos (fun row => Contains row.Data baseTime) rest h]
      push_cast
      ring
    · simp only [h, if_false, ih, Bool.false_eq_true]
      rw [List.countP_cons_of_neg (fun row => Contains row.Data baseTime) rest h]

/-- The state after `TestDatabaseManager.WriteToPrimary`: one more subprocess
call, nothing else counted. -/
theorem ReplicationTest.TestDatabaseManager_WriteToPrimary_snd {F : Type} (o : Outside) (dataText : String)
    (st : State F) :
    (ReplicationTest.WriteToPrimary o dataText st).2.cmdCalls = st.cmdCalls + 1 ∧
    (ReplicationTest.WriteToPrimary o dataText st).2.rowsCalls = st.rowsCalls ∧
    (ReplicationTest.WriteToPrimary o dataText st).2.countCalls = st.countCalls ∧
    (ReplicationTest.WriteToPrimary o dataText st).2.clockReads = st.clockReads := by
  unfold ReplicationTest.WriteToPrimary CombinedOutput
  cases herr : (o.cmd st.cmdCalls).err
  · simp only [herr, Bool.false_eq_true, if_false]
    split <;> simp
  · simp [herr]

/-- The success flag of `TestDatabaseManager.WriteToPrimary` is the absence of
a subprocess error. -/
theorem ReplicationTest.TestDatabaseManager_WriteToPrimary_flag {F : Type} (o : Outside) (dataText : String)
    (st : State F) :
    (ReplicationTest.WriteToPrimary o dataText st).1.1 = !(o.cmd st.cmdCalls).err := by
  rw [ReplicationTest.TestDatabaseManager_WriteToPrimary_fst]
  cases (o.cmd st.cmdCalls).err <;> simp

/-- The write loop of `TestDataConsistency` adds to the counter the number of its
`n` subprocess calls that returned no error, and touches nothing but the
subprocess counter and the log. -/
theorem ReplicationTest.TestDataConsistency_writeLoop_spec {F : Type} (o : Outside)
    (baseTime : String) (n : Nat) (i successCount : Int) (st : State F) :
    (ReplicationTest.consistencyWriteLoop o baseTime n i successCount st).1 =
      successCount + ((List.range n).countP (fun k => !(o.cmd (st.cmdCalls + k)).err) : Nat) ∧
    (ReplicationTest.consistencyWriteLoop o baseTime n i successCount st).2.cmdCalls =
      st.cmdCalls + n ∧
    (ReplicationTest.consistencyWriteLoop o baseTime n i successCount st).2.rowsCalls =
      st.rowsCalls ∧
    (ReplicationTest.consistencyWriteLoop o baseTime n i successCount st).2.countCalls =
      st.countCalls ∧
    (ReplicationTest.consistencyWriteLoop o baseTime n i successCount st).2.clockReads =
      st.clockReads := by
  induction n generalizing i successCount st with
  | zero => simp [ReplicationTest.consistencyWriteLoop]
  | succ n ih =>
    unfold ReplicationTest.consistencyWriteLoop
    simp only [ReplicationTest.TestDatabaseManager_WriteToPrimary_flag]
    rw [countP_range_succ]
    obtain ⟨w1, w2, w3, w4⟩ := ReplicationTest.TestDatabaseManager_WriteToPrimary_snd o
      ("Consistency test " ++ toString (i + 1) ++ " - " ++ baseTime) st
    have hfun : (fun k => !(o.cmd (st.cmdCalls + 1 + k)).err) =
        (fun k => !(o.cmd (st.cmdCalls + (k + 1))).err) := by
      funext k
      rw [show st.cmdCalls + 1 + k = st.cmdCalls + (k + 1) by omega]
    cases herr : (o.cmd st.cmdCalls).err
    · simp only [Bool.not_false, if_true]
      obtain ⟨h1, h2, h3, h4, h5⟩ := ih (i + 1) (successCount + 1)
        (timeSleep 300 (ReplicationTest.WriteToPrimary o
          ("Consistency test " ++ toString (i + 1) ++ " - " ++ baseTime) st).2)
      simp only [timeSleep_cmdCalls, timeSleep_rowsCalls, timeSleep_countCalls,
        timeSleep_clockReads, w1, w2, w3, w4] at h1 h2 h3 h4 h5
      rw [hfun] at h1
      refine ⟨?_, ?_, h3, h4, h5⟩
      · rw [h1]
        simp only [Nat.add_zero, herr, Bool.not_false, if_true]
        push_cast
        ring
      · rw [h2]; omega
    · simp only [Bool.not_true, Bool.false_eq_true, if_false]
      obtain ⟨h1, h2, h3, h4, h5⟩ := ih (i + 1) successCount
        (timeSleep 300 (ReplicationTest.WriteToPrimary o
          ("Consistency test " ++ toString (i + 1) ++ " - " ++ baseTime) st).2)
      simp only [timeSleep_cmdCalls, timeSleep_rowsCalls, timeSleep_countCalls,
        timeSleep_clockReads, w1, w2, w3, w4] at h1 h2 h3 h4 h5
      rw [hfun] at h1
      refine ⟨?_, ?_, h3, h4, h5⟩
      · rw [h1]
        simp only [Nat.add_zero, herr, Bool.not_true, Bool.false_eq_true, if_false,
          Nat.zero_add]
      · rw [h2]; omega

/-- The counting loop of `TestDataConsistency` adds to the counter the number of
rows whose data contains the tag. -/
theorem ReplicationTest.TestDataConsistency_countLoop_spec (baseTime : String)
    (rows : List ReplicationData) (consistencyCount : Int) :
    ReplicationTest.consistencyCountLoop baseTime rows consistencyCount =
      consistencyCount + (rows.countP (fun row => Contains row.Data baseTime) : Nat) := by
  induction rows generalizing consistencyCount with
  | nil => simp [ReplicationTest.consistencyCountLoop]
  | cons row rest ih =>
    unfold ReplicationTest.consistencyCountLoop
    by_cases h : Contains row.Data baseTime = true
    · simp only [h, if_true, ih]
      rw [List.countP_cons_of_pos (fun row => Contains row.Data baseTime) rest h]
      push_cast
      ring
    · simp only [h, if_false, ih, Bool.false_eq_true]
      rw [List.countP_cons_of_neg (fun row => Contains row.Data baseTime) rest h]

/-- The result of `TestDatabaseManager.ReadFromStandby` in terms of the answer
to the query. -/
theorem ReplicationTest.TestDatabaseManager_ReadFromStandby_fst {F : Type} (o : Outside) (limit : Int)
    (st : State F) :
    (ReplicationTest.ReadFromStandby o limit st).1 =
      if (o.rows st.rowsCalls).err then none
      else ReplicationDemo.scanLoop (o.rows st.rowsCalls).rows [] := by
  unfold ReplicationTest.ReadFromStandby
  cases herr : (o.rows st.rowsCalls).err
  · simp only [herr, Bool.false_eq_true, if_false]
    split <;> simp_all
  · simp [herr]

/-- C6: `RunDataConsistencyCheck` returns true exactly when the standby read
succeeds and the number of rows read whose data contains the tag `baseTime` is at
least the number of the three writes whose subprocess returned no error (a number
that is at most 3). `TestDataConsistency`, once its manager is created, passes
under the same condition. -/
theorem ReplicationDemo.RunDataConsistencyCheck_spec {F : Type} (o : Outside)
    (rt : Runtime F) (st : State F) :
    let baseTime := rt.format "20060102_150405" (o.clock st.clockReads)
    let successCount := (List.range 3).countP (fun k => !(o.cmd (st.cmdCalls + k)).err)
    let read := o.rows st.rowsCalls
    ((ReplicationDemo.RunDataConsistencyCheck o rt st).1 = true ↔
      read.err = false ∧
      ∃ rows, ReplicationDemo.scanLoop read.rows [] = some rows ∧
        successCount ≤ rows.countP (fun row => Contains row.Data baseTime)) ∧
    successCount ≤ 3 ∧
    ((ReplicationTest.TestDataConsistency o rt st).1 = true ↔
      (ReplicationTest.NewTestDatabaseManager o st).1 = true ∧
      read.err = false ∧
      ∃ rows, ReplicationDemo.scanLoop read.rows [] = some rows ∧
        successCount ≤ rows.countP (fun row => Contains row.Data baseTime)) := by
  intro baseTime successCount read
  refine ⟨?_, ?_, ?_⟩
  · unfold ReplicationDemo.RunDataConsistencyCheck
    simp only []
    obtain ⟨h1, h2, h3, h4, h5⟩ := ReplicationDemo.consistencyWriteLoop_spec o rt
      (rt.format "20060102_150405" (timeNow o ((((st.emit
        (Event.printf ("\n" ++ Repeat "=" 60 ++ "\n") [])).emit
        (Event.println "🔍 データ整合性チェック")).emit
        (Event.println (Repeat "=" 60))).emit
        (Event.println "📝 連続データ書き込み中..."))).1) 3 0 0
      (timeNow o ((((st.emit
        (Event.printf ("\n" ++ Repeat "=" 60 ++ "\n") [])).emit
        (Event.println "🔍 データ整合性チェック")).emit
        (Event.println (Repeat "=" 60))).emit
        (Event.println "📝 連続データ書き込み中..."))).2
    simp only [timeNow_fst, timeNow_cmdCalls, timeNow_rowsCalls, State.emit_cmdCalls,
      State.emit_rowsCalls, State.emit_clockReads] at h1 h3
    simp only [ReplicationDemo.ReadFromStandby_fst, timeNow_fst, State.emit_clockReads,
      State.emit_rowsCalls, timeSleep_rowsCalls, h3]
    cases herr : (o.rows st.rowsCalls).err
    · simp only [Bool.false_eq_true, if_false]
      cases hscan : ReplicationDemo.scanLoop (o.rows st.rowsCalls).rows [] with
      | none => simp [read, herr, hscan]
      | some rows =>
        simp only [ReplicationDemo.consistencyCountLoop_spec, h1]
        simp only [read, herr, hscan, Option.some.injEq, exists_eq_left', true_and,
          baseTime, successCount]
        by_cases hle : (List.range 3).countP (fun k => !(o.cmd (st.cmdCalls + k)).err) ≤
            rows.countP (fun row => Contains row.Data
              (rt.format "20060102_150405" (o.clock st.clockReads)))
        · have : (0 : Int) + ((List.countP (fun row => Contains row.Data
              (rt.format "20060102_150405" (o.clock st.clockReads))) rows : Nat) : Int) ≥
              0 + ((List.countP (fun k => !(o.cmd (st.cmdCalls + k)).err) (List.range 3) : Nat) :
                Int) := by
            omega
          simp [this, hle]
        · have : ¬ ((0 : Int) + ((List.countP (fun row => Contains row.Data
              (rt.format "20060102_150405" (o.clock st.clockReads))) rows : Nat) : Int) ≥
              0 + ((List.countP (fun k => !(o.cmd (st.cmdCalls + k)).err) (List.range 3) : Nat) :
                Int)) := by
            omega
          simp [this, hle]
    · simp [read, herr]
  · exact le_trans (List.countP_le_length _) (by simp)
  · unfold ReplicationTest.TestDataConsistency
    simp only []
    obtain ⟨m1, m2, _, m4⟩ := ReplicationTest.NewTestDatabaseManager_snd o st
    obtain ⟨h1, _, h3, _, _⟩ := ReplicationTest.TestDataConsistency_writeLoop_spec o
      (rt.format "20060102_150405"
        (timeNow o (ReplicationTest.NewTestDatabaseManager o st).2).1) 3 0 0
      (timeNow o (ReplicationTest.NewTestDatabaseManager o st).2).2
    simp only [timeNow_fst, timeNow_cmdCalls, timeNow_rowsCalls, m1, m2, m4] at h1 h3
    simp only [ReplicationTest.TestDatabaseManager_ReadFromStandby_fst, timeNow_fst, timeSleep_rowsCalls, h3, m4]
    cases hc : (ReplicationTest.NewTestDatabaseManager o st).1
    · simp
    · simp only [Bool.not_true, Bool.false_eq_true, if_false, true_and]
      cases herr : (o.rows st.rowsCalls).err
      · simp only [Bool.false_eq_true, if_false]
        cases hscan : ReplicationDemo.scanLoop (o.rows st.rowsCalls).rows [] with
        | none => simp [read, herr, hscan]
        | some rows =>
          simp only [ReplicationTest.TestDataConsistency_countLoop_spec, h1]
          simp only [read, herr, hscan, Option.some.injEq, exists_eq_left', true_and,
            baseTime, successCount]
          by_cases hle : (List.range 3).countP (fun k => !(o.cmd (st.cmdCalls + k)).err) ≤
              rows.countP (fun row => Contains row.Data
                (rt.format "20060102_150405" (o.clock st.clockReads)))
          · have hlt := Nat.not_lt.mpr hle
            simp [hlt, hle]
          · have hlt := Nat.lt_of_not_le hle
            simp [hlt, hle]
      · simp [read, herr]

/-! ## The properties at concrete inputs -/

/-- C2 at concrete inputs: with both servers up the program exits with status 0;
with both servers down both calls return false and it exits with status 1. -/
theorem ConnectionCheck.connection_check_exit_status_witness :
    exitStatus (ConnectionCheck.main (fun _ => none) (fun _ => serverUp)).1 = 0 ∧
    exitStatus (ConnectionCheck.main (fun _ => none) (fun _ => serverDown)).1 = 1 :=
  ⟨(ConnectionCheck.connection_check_exit_status (fun _ => none) (fun _ => serverUp)).1.mpr
    ⟨by decide, by decide⟩,
   (ConnectionCheck.connection_check_exit_status (fun _ => none) (fun _ => serverDown)).2.mpr
    ⟨false, false, by decide, by decide, Or.inl rfl⟩⟩

/-- C4 at a concrete input: on the output of a successful insert of row 42 the
result is true and the printed ID is "42". -/
theorem ReplicationDemo.WriteToPrimary_spec_witness :
    (ReplicationDemo.WriteToPrimary outsideInsert sampleRuntime "x" (State.start ℚ)).1 = true ∧
    (ReplicationDemo.WriteToPrimary outsideInsert sampleRuntime "x" (State.start ℚ)).2.log =
      [Event.exec (ReplicationDemo.psqlArgv
        "INSERT INTO test_replication (data) VALUES ('x') RETURNING id, created_at;"),
       Event.printf "📝 プライマリに書き込み成功: ID=%s, データ='%s'\n"
        [Arg.s "42", Arg.s "x"]] :=
  ⟨by
    have h := (ReplicationDemo.WriteToPrimary_spec outsideInsert sampleRuntime "x"
      (State.start ℚ)).1
    cases hr : (ReplicationDemo.WriteToPrimary outsideInsert sampleRuntime "x"
      (State.start ℚ)).1
    · exact absurd (h.mp hr) (by decide)
    · rfl,
   by
    rw [(ReplicationDemo.WriteToPrimary_spec outsideInsert sampleRuntime "x"
      (State.start ℚ)).2]
    decide⟩

/-- C5 at a concrete input: on the output of the status query with one streaming
standby the result is a pointer to the lag 1/2 read from the seventh field. -/
theorem ReplicationDemo.GetReplicationStatus_spec_witness :
    (ReplicationDemo.GetReplicationStatus outsideStreaming sampleRuntimeHalf
      (State.start ℚ)).1 = some (1 / 2) := by
  rw [(ReplicationDemo.GetReplicationStatus_spec outsideStreaming sampleRuntimeHalf
    (State.start ℚ)).2]
  rfl

/-- C8 at a concrete input: the subprocess prints 0.5, so the lag is 1/2 with a
nil error and `TestReplicationLag` passes. -/
theorem ReplicationTest.TestDatabaseManager_GetReplicationStatus_spec_witness :
    (ReplicationTest.GetReplicationStatus outsideLag sampleRuntimeHalf (State.start ℚ)).1 =
      (1 / 2, false) ∧
    (ReplicationTest.TestReplicationLag outsideLag sampleRuntimeHalf (State.start ℚ)).1 =
      true := by
  have h := ReplicationTest.TestDatabaseManager_GetReplicationStatus_spec outsideLag
    sampleRuntimeHalf (State.start ℚ)
  refine ⟨h.2.1.trans rfl, h.2.2.mpr ⟨rfl, rfl, ?_⟩⟩
  have hl : (ReplicationTest.GetReplicationStatus outsideLag sampleRuntimeHalf
      (ReplicationTest.NewTestDatabaseManager outsideLag (State.start ℚ)).2).1.1 =
      (1 / 2 : ℚ) := rfl
  rw [hl]
  norm_num

/-- C10 at a concrete input: every call succeeds and both count queries answer
0, so the final count is not greater than the initial one; `RunBasicDemo`
returns true and its last printed line is the warning. -/
theorem ReplicationDemo.RunBasicDemo_spec_witness :
    (ReplicationDemo.RunBasicDemo outsideQuiet sampleRuntime (State.start ℚ)).1 = true ∧
    (ReplicationDemo.RunBasicDemo outsideQuiet sampleRuntime (State.start ℚ)).2.log.getLast? =
      some (Event.println "   ⚠️  データ同期に問題があります") :=
  (ReplicationDemo.RunBasicDemo_spec outsideQuiet sampleRuntime (State.start ℚ)).2.2
    (by decide) (by decide)

/-- C6 at a concrete input: the three writes succeed and the standby returns no
row, so the check fails; the count of successful writes is 3. -/
theorem ReplicationDemo.RunDataConsistencyCheck_spec_witness :
    (ReplicationDemo.RunDataConsistencyCheck outsideQuiet sampleRuntime (State.start ℚ)).1 =
      false ∧
    (List.range 3).countP (fun k => !(outsideQuiet.cmd ((State.start ℚ).cmdCalls + k)).err) = 3 :=
  ⟨by
    have h := (ReplicationDemo.RunDataConsistencyCheck_spec outsideQuiet sampleRuntime
      (State.start ℚ)).1
    cases hr : (ReplicationDemo.RunDataConsistencyCheck outsideQuiet sampleRuntime
      (State.start ℚ)).1
    · rfl
    · obtain ⟨_, rows, hrows, hle⟩ := h.mp hr
      have hnil : rows = [] := by
        have : ReplicationDemo.scanLoop (outsideQuiet.rows (State.start ℚ).rowsCalls).rows [] =
            some [] := rfl
        rw [this] at hrows
        exact (Option.some.inj hrows).symm
      rw [hnil] at hle
      exact absurd hle (by decide),
   by decide⟩

/-! ## Properties: the version slice of `testConnection` -/

/-- C12: when opening, ping and the version query succeed, the slice
`version[:60]` is in range exactly when the version text has at least 60 bytes.
For such a text the third line printed is the success line built from its first
60 bytes followed by "..."; for a shorter text `testConnection` panics instead
of returning, and prints no success line. -/
theorem ConnectionCheck.testConnection_version_slice (env : Env)
    (connect : String → ConnectionCheck.Server) (host : String) (port : Int)
    (description : String) (srv : ConnectionCheck.Server) (version : String)
    (hsrv : connect ("host=" ++ host ++ " port=" ++ toString port ++ " user=" ++
      getEnv env "POSTGRES_USER" "postgres" ++ " password=" ++
      getEnv env "POSTGRES_PASSWORD" "password" ++ " dbname=" ++
      getEnv env "POSTGRES_DB" "testdb" ++ " sslmode=disable connect_timeout=10") = srv)
    (hopen : srv.openErr = false) (hping : srv.pingErr = false)
    (hversion : srv.version = some version) :
    ((ConnectionCheck.testConnection env connect host port description).1 = none ↔
      (utf8Bytes version).length < 60) ∧
    (60 ≤ (utf8Bytes version).length →
      (ConnectionCheck.testConnection env connect host port description).2[2]? =
        some (ConnectionCheck.Msg.sliced "   ✅ 接続成功: %s\n"
          ((utf8Bytes version).take 60 ++ utf8Bytes "..."))) ∧
    ((utf8Bytes version).length < 60 →
      ∀ format bytes, ConnectionCheck.Msg.sliced format bytes ∉
        (ConnectionCheck.testConnection env connect host port description).2) := by
  unfold ConnectionCheck.testConnection
  simp only [hsrv, hopen, hping, hversion, Bool.false_eq_true, if_false]
  by_cases hlen : (utf8Bytes version).length < 60
  · simp only [hlen, if_true, true_iff, true_and]
    refine ⟨fun h => absurd hlen (Nat.not_lt.mpr h), fun _ format bytes => ?_⟩
    unfold ConnectionCheck.deferredClose
    split <;> simp
  · have hge : 60 ≤ (utf8Bytes version).length := Nat.not_lt.mp hlen
    simp only [hlen, if_false, false_iff, iff_false]
    refine ⟨?_, fun _ => ?_, fun h => h.elim⟩
    · cases srv.count <;> cases srv.isRecovery <;> simp
    · unfold ConnectionCheck.deferredClose
      cases srv.count <;> cases srv.isRecovery <;> cases srv.closeErr <;> simp

/-- C12 at concrete inputs: a version text of 15 bytes makes `testConnection`
panic; a version text of 76 bytes does not. -/
theorem ConnectionCheck.testConnection_version_slice_witness :
    (ConnectionCheck.testConnection (fun _ => none) (fun _ => serverShortVersion)
      "localhost" 5432 "primary").1 = none ∧
    (ConnectionCheck.testConnection (fun _ => none) (fun _ => serverUp)
      "localhost" 5432 "primary").1 ≠ none :=
  ⟨(ConnectionCheck.testConnection_version_slice (fun _ => none)
      (fun _ => serverShortVersion) "localhost" 5432 "primary" serverShortVersion
      "PostgreSQL 15.4" rfl rfl rfl rfl).1.mpr (by decide),
   fun h => absurd ((ConnectionCheck.testConnection_version_slice (fun _ => none)
      (fun _ => serverUp) "localhost" 5432 "primary" serverUp
      ("PostgreSQL 15.4 on x86_64-pc-linux-gnu, compiled by gcc " ++ "(GCC) 12.2.0, 64-bit")
      rfl rfl rfl rfl).1.mp h) (by decide)⟩

/-! ## Properties: the ports of `connection_check` -/

/-- The value of a digit sequence is at least the value it continues from. -/
theorem digitsValue_ge (ds : List Char) (n : Nat) : n ≤ digitsValue ds n := by
  induction ds generalizing n with
  | nil => simp [digitsValue]
  | cons c cs ih =>
    have h := ih (n * 10 + (c.toNat - '0'.toNat))
    simp only [digitsValue, List.foldl_cons] at h ⊢
    omega

/-- The digit loop of `ParseUint`, started within the unsigned range: a range
error as soon as the leading digits leave the range, otherwise the value of an
all-digit text, otherwise a syntax error. -/
theorem parseUintLoop_eq (cs : List Char) (n : Nat) (hn : n ≤ 2 ^ 64 - 1) :
    parseUintLoop cs n =
      if digitsValue (cs.takeWhile isDigit) n > 2 ^ 64 - 1 then
        (2 ^ 64 - 1, some NumError.ErrRange)
      else if cs.all isDigit then (digitsValue cs n, none)
      else (0, some NumError.ErrSyntax) := by
  induction cs generalizing n with
  | nil =>
    have hle : ¬ n > 2 ^ 64 - 1 := Nat.not_lt.mpr hn
    have hv : digitsValue (List.takeWhile isDigit []) n = n := rfl
    rw [hv, if_neg hle]
    rfl
  | cons c cs ih =>
    unfold parseUintLoop
    by_cases hd : '0'.toNat ≤ c.toNat ∧ c.toNat ≤ '9'.toNat
    · have hdig : isDigit c = true := decide_eq_true hd
      have htw : (c :: cs).takeWhile isDigit = c :: cs.takeWhile isDigit := by
        rw [List.takeWhile_cons, hdig]
        rfl
      have hall : (c :: cs).all isDigit = cs.all isDigit := by
        rw [List.all_cons, hdig, Bool.true_and]
      have hval : ∀ t : List Char, digitsValue (c :: t) n =
          digitsValue t (n * 10 + (c.toNat - '0'.toNat)) := fun t => rfl
      rw [if_pos hd, htw, hall, hval, hval]
      have hge := digitsValue_ge (cs.takeWhile isDigit) (n * 10 + (c.toNat - '0'.toNat))
      by_cases h1 : n ≥ (2 ^ 64 - 1) / 10 + 1
      · have hbig : digitsValue (cs.takeWhile isDigit) (n * 10 + (c.toNat - '0'.toNat)) >
            2 ^ 64 - 1 := by
          have hc : (2 ^ 64 - 1) / 10 + 1 = 1844674407370955162 := by norm_num
          have hm : 2 ^ 64 - 1 = 18446744073709551615 := by norm_num
          omega
        rw [if_pos h1, if_pos hbig]
      · by_cases h2 : n * 10 + (c.toNat - '0'.toNat) > 2 ^ 64 - 1
        · have hbig : digitsValue (cs.takeWhile isDigit) (n * 10 + (c.toNat - '0'.toNat)) >
              2 ^ 64 - 1 := lt_of_lt_of_le h2 hge
          rw [if_neg h1, if_pos h2, if_pos hbig]
        · rw [if_neg h1, if_neg h2]
          exact ih (n * 10 + (c.toNat - '0'.toNat)) (Nat.not_lt.mp h2)
    · have hdig : isDigit c = false := decide_eq_false hd
      have htw : (c :: cs).takeWhile isDigit = [] := by
        rw [List.takeWhile_cons, hdig]
        rfl
      have hall : (c :: cs).all isDigit = false := by
        rw [List.all_cons, hdig, Bool.false_and]
      have hle : ¬ n > 2 ^ 64 - 1 := Nat.not_lt.mpr hn
      have hv : digitsValue [] n = n := rfl
      rw [if_neg hd, htw, hall, hv, if_neg hle]
      rfl

/-- The function `ParseUint` on a non-empty text is its digit loop from 0. -/
theorem ParseUint_eq (body : List Char) :
    ParseUint body =
      if body.isEmpty then (0, some NumError.ErrSyntax)
      else if digitsValue (body.takeWhile isDigit) 0 > 2 ^ 64 - 1 then
        (2 ^ 64 - 1, some NumError.ErrRange)
      else if body.all isDigit then (digitsValue body 0, none)
      else (0, some NumError.ErrSyntax) := by
  cases body with
  | nil => rfl
  | cons c cs =>
    have h := parseUintLoop_eq (c :: cs) 0 (Nat.zero_le _)
    simp only [ParseUint, List.isEmpty_cons, Bool.false_eq_true, if_false]
    exact h

/-- The result of `ParseInt` on a text with first character `c` and sign-free
part `body`, in terms of the value of the digits. -/
theorem ParseInt_cons (c : Char) (cs : List Char) :
    ParseInt (c :: cs) =
      (let body := if c = '+' ∨ c = '-' then cs else c :: cs
       if body.isEmpty then (0, some NumError.ErrSyntax)
       else if digitsValue (body.takeWhile isDigit) 0 > 2 ^ 64 - 1 then
         (if c = '-' then -(2 ^ 63 : Int) else (2 ^ 63 - 1 : Int), some NumError.ErrRange)
       else if body.all isDigit then
         (if ¬ c = '-' ∧ digitsValue body 0 ≥ 2 ^ 63 then
            ((2 ^ 63 - 1 : Int), some NumError.ErrRange)
          else if c = '-' ∧ digitsValue body 0 > 2 ^ 63 then
            (-(2 ^ 63 : Int), some NumError.ErrRange)
          else (if c = '-' then -((digitsValue body 0 : Nat) : Int)
                else ((digitsValue body 0 : Nat) : Int), none))
       else (0, some NumError.ErrSyntax)) := by
  unfold ParseInt
  simp only [ParseUint_eq]
  generalize (if c = '+' ∨ c = '-' then cs else c :: cs) = body
  by_cases hb : body.isEmpty = true
  · simp only [hb, if_true]
  · by_cases ho : digitsValue (body.takeWhile isDigit) 0 > 2 ^ 64 - 1
    · simp only [hb, ho, if_true, if_false, Bool.false_eq_true]
      by_cases hc : c = '-'
      · simp [hc]
      · simp [hc]
    · by_cases ha : body.all isDigit = true
      · simp only [hb, ho, ha, if_true, if_false, Bool.false_eq_true]
      · simp only [hb, ho, ha, if_false, Bool.false_eq_true]

/-- The function `Atoi` in terms of decimal numerals: a numeral within the
64-bit range gives its value and no error; a numeral outside it gives the
nearest bound and a range error; a text that is no numeral gives 0 and a syntax
error, unless its leading digits already exceed the unsigned 64-bit range, which
gives the bound of its sign and a range error. -/
theorem Atoi_eq (s : String) :
    Atoi s =
      if isDecimalNumeral s then
        (if numeralValue s > 2 ^ 63 - 1 then ((2 ^ 63 - 1 : Int), some NumError.ErrRange)
         else if numeralValue s < -(2 ^ 63) then (-(2 ^ 63 : Int), some NumError.ErrRange)
         else (numeralValue s, none))
      else if digitsValue (leadingDigits s) 0 > 2 ^ 64 - 1 then
        (if numeralNegative s then -(2 ^ 63 : Int) else (2 ^ 63 - 1 : Int),
          some NumError.ErrRange)
      else (0, some NumError.ErrSyntax) := by
  rcases s with ⟨l⟩
  cases l with
  | nil => decide
  | cons c cs =>
    unfold Atoi
    rw [ParseInt_cons]
    simp only [isDecimalNumeral, numeralValue, numeralNegative, leadingDigits, numeralBody]
    generalize (if c = '+' ∨ c = '-' then cs else c :: cs) = body
    by_cases hb : body.isEmpty = true
    · have hnil : body = [] := List.isEmpty_iff.mp hb
      subst hnil
      simp [digitsValue]
    · have hb' : body.isEmpty = false := by simpa using hb
      by_cases ha : body.all isDigit = true
      · have htw : body.takeWhile isDigit = body :=
          List.takeWhile_eq_self_iff.mpr (List.all_eq_true.mp ha)
        simp only [hb', ha, htw, Bool.not_false, Bool.true_and, if_true, Bool.false_eq_true,
          if_false]
        by_cases hc : c = '-'
        · simp only [hc, decide_True, if_true, not_true_eq_false, false_and, if_false,
            true_and]
          by_cases ho : digitsValue body 0 > 2 ^ 64 - 1
          · have h1 : ¬ (-((digitsValue body 0 : Nat) : Int) > 2 ^ 63 - 1) := by omega
            have h2 : -((digitsValue body 0 : Nat) : Int) < -(2 ^ 63) := by omega
            rw [if_pos ho, if_neg h1, if_pos h2]
          · have h1 : ¬ (-((digitsValue body 0 : Nat) : Int) > 2 ^ 63 - 1) := by omega
            rw [if_neg ho, if_neg h1]
            by_cases h3 : digitsValue body 0 > 2 ^ 63
            · have h2 : -((digitsValue body 0 : Nat) : Int) < -(2 ^ 63) := by omega
              rw [if_pos h3, if_pos h2]
            · have h2 : ¬ (-((digitsValue body 0 : Nat) : Int) < -(2 ^ 63)) := by omega
              rw [if_neg h3, if_neg h2]
        · simp only [hc, decide_False, Bool.false_eq_true, if_false, not_false_eq_true,
            true_and, false_and]
          by_cases ho : digitsValue body 0 > 2 ^ 64 - 1
          · have h1 : ((digitsValue body 0 : Nat) : Int) > 2 ^ 63 - 1 := by omega
            rw [if_pos ho, if_pos h1]
          · rw [if_neg ho]
            by_cases h3 : digitsValue body 0 ≥ 2 ^ 63
            · have h1 : ((digitsValue body 0 : Nat) : Int) > 2 ^ 63 - 1 := by omega
              rw [if_pos h3, if_pos h1]
            · have h1 : ¬ (((digitsValue body 0 : Nat) : Int) > 2 ^ 63 - 1) := by omega
              have h2 : ¬ (((digitsValue body 0 : Nat) : Int) < -(2 ^ 63)) := by omega
              rw [if_neg h3, if_neg h1, if_neg h2]
      · have ha' : body.all isDigit = false := by simpa using ha
        simp only [hb', ha', Bool.not_false, Bool.and_false, Bool.false_eq_true, if_false]
        by_cases hc : c = '-' <;> simp [hc]

/-- C14, as stated, fails: the primary port variable set to the numeral
99999999999999999999 gives neither that value nor 0 but the port
9223372036854775807, with the range error of `Atoi` discarded; and the standby
port variable set to the same digits followed by "x", which is no numeral, gives
the same port instead of 0. -/
theorem ConnectionCheck.port_out_of_range :
    (envHugePorts "POSTGRES_PRIMARY_PORT" = some "99999999999999999999" ∧
      isDecimalNumeral "99999999999999999999" = true ∧
      numeralValue "99999999999999999999" = 99999999999999999999 ∧
      (Atoi "99999999999999999999").2 = some NumError.ErrRange ∧
      ConnectionCheck.primaryPort envHugePorts = 9223372036854775807) ∧
    (envHugePorts "POSTGRES_STANDBY_PORT" = some "99999999999999999999x" ∧
      isDecimalNumeral "99999999999999999999x" = false ∧
      ConnectionCheck.standbyPort envHugePorts = 9223372036854775807) := by
  decide

/-- The port read from a variable: the value `Atoi` gives for the default text
when the variable is unset or empty, and for the text of the variable otherwise. -/
theorem ConnectionCheck.port_of_variable (env : Env) (key defaultValue : String) :
    (Atoi (getEnv env key defaultValue)).1 =
      match env key with
      | none => (Atoi defaultValue).1
      | some v => if v = "" then (Atoi defaultValue).1 else (Atoi v).1 := by
  unfold getEnv Getenv
  cases h : env key with
  | none => simp
  | some v => by_cases hv : v = "" <;> simp [hv]

/-- C14 (amended): `connection_check` uses port 5432 for the primary and 5433
for the standby when the variable is unset or empty. When the variable is a
decimal numeral (an optional sign, then digits) the port is its value if that
fits a 64-bit int, and otherwise the nearest bound, 9223372036854775807 or
-9223372036854775808. When the variable is no decimal numeral the port is 0,
not the default, unless its leading digits already exceed 18446744073709551615,
in which case it is the bound of its sign. The conversion error is discarded in
every case. -/
theorem ConnectionCheck.ports_from_environment (env : Env) :
    ConnectionCheck.primaryPort env =
      (match env "POSTGRES_PRIMARY_PORT" with
       | none => 5432
       | some v =>
         if v = "" then 5432
         else if isDecimalNumeral v then
           (if numeralValue v > 2 ^ 63 - 1 then 2 ^ 63 - 1
            else if numeralValue v < -(2 ^ 63) then -(2 ^ 63)
            else numeralValue v)
         else if digitsValue (leadingDigits v) 0 > 2 ^ 64 - 1 then
           (if numeralNegative v then -(2 ^ 63) else 2 ^ 63 - 1)
         else 0) ∧
    ConnectionCheck.standbyPort env =
      (match env "POSTGRES_STANDBY_PORT" with
       | none => 5433
       | some v =>
         if v = "" then 5433
         else if isDecimalNumeral v then
           (if numeralValue v > 2 ^ 63 - 1 then 2 ^ 63 - 1
            else if numeralValue v < -(2 ^ 63) then -(2 ^ 63)
            else numeralValue v)
         else if digitsValue (leadingDigits v) 0 > 2 ^ 64 - 1 then
           (if numeralNegative v then -(2 ^ 63) else 2 ^ 63 - 1)
         else 0) := by
  have h5432 : (Atoi "5432").1 = 5432 := by decide
  have h5433 : (Atoi "5433").1 = 5433 := by decide
  have hval : ∀ v : String, (Atoi v).1 =
      if isDecimalNumeral v then
        (if numeralValue v > 2 ^ 63 - 1 then 2 ^ 63 - 1
         else if numeralValue v < -(2 ^ 63) then -(2 ^ 63)
         else numeralValue v)
      else if digitsValue (leadingDigits v) 0 > 2 ^ 64 - 1 then
        (if numeralNegative v then -(2 ^ 63) else 2 ^ 63 - 1)
      else 0 := by
    intro v
    rw [Atoi_eq]
    split_ifs <;> rfl
  refine ⟨?_, ?_⟩
  · unfold ConnectionCheck.primaryPort
    rw [ConnectionCheck.port_of_variable]
    cases env "POSTGRES_PRIMARY_PORT" with
    | none => exact h5432
    | some v => simp only [h5432, hval v]
  · unfold ConnectionCheck.standbyPort
    rw [ConnectionCheck.port_of_variable]
    cases env "POSTGRES_STANDBY_PORT" with
    | none => exact h5433
    | some v => simp only [h5433, hval v]

/-- C14 at concrete inputs: the variables unset give 5432 and 5433; set to "6543"
and "abc" they give 6543 and 0. -/
theorem ConnectionCheck.ports_from_environment_witness :
    (ConnectionCheck.primaryPort (fun _ => none) = 5432 ∧
      ConnectionCheck.standbyPort (fun _ => none) = 5433) ∧
    (ConnectionCheck.primaryPort envPorts = 6543 ∧
      ConnectionCheck.standbyPort envPorts = 0) :=
  ⟨⟨(ConnectionCheck.ports_from_environment (fun _ => none)).1,
    (ConnectionCheck.ports_from_environment (fun _ => none)).2⟩,
   ⟨(ConnectionCheck.ports_from_environment envPorts).1.trans (by decide),
    (ConnectionCheck.ports_from_environment envPorts).2.trans (by decide)⟩⟩

/-! ## Properties: the standby connection string of `simple_demo` -/

/-- Appending an event keeps the start of the log. -/
theorem State.LogExtends.emit {F : Type} {base : List (Event F)} {st : State F}
    (e : Event F) (h : st.LogExtends base) : (st.emit e).LogExtends base := by
  obtain ⟨more, hm⟩ := h
  exact ⟨more ++ [e], by simp [State.emit, hm]⟩

/-- A state built with a longer log keeps the start of the log. -/
theorem State.LogExtends.mk_append {F : Type} {base : List (Event F)} {st : State F}
    (a b c d : Nat) (l : List (Event F)) (h : st.LogExtends base) :
    State.LogExtends base
      ({ cmdCalls := a, rowsCalls := b, countCalls := c, clockReads := d,
         log := st.log ++ l } : State F) := by
  obtain ⟨more, hm⟩ := h
  exact ⟨more ++ l, by simp [hm]⟩

/-- A state built with the same log keeps the start of the log. -/
theorem State.LogExtends.mk_same {F : Type} {base : List (Event F)} {st : State F}
    (a b c d : Nat) (h : st.LogExtends base) :
    State.LogExtends base
      ({ cmdCalls := a, rowsCalls := b, countCalls := c, clockReads := d,
         log := st.log } : State F) := by
  obtain ⟨more, hm⟩ := h
  exact ⟨more, hm⟩

/-- The row loop of `simpleDemo` only appends to the log. -/
theorem SimpleDemo.rowsLoop_log {F : Type} {base : List (Event F)} (rt : Runtime F)
    (rows : List ScanResult) (st : State F) (h : st.LogExtends base) :
    (SimpleDemo.rowsLoop rt rows st).LogExtends base := by
  induction rows generalizing st with
  | nil => exact h
  | cons r rest ih =>
    cases r with
    | row data =>
      rw [SimpleDemo.rowsLoop]
      exact ih _ (h.emit _)
    | scanErr =>
      rw [SimpleDemo.rowsLoop]
      exact ih _ (h.emit _)

/-- The log of `simpleDemo` starts with its two header lines and the opening of
the standby connection with the string `standbyConnStr`. -/
theorem SimpleDemo.simpleDemo_log {F : Type} (o : Outside) (rt : Runtime F)
    (latest : Option ReplicationData) (st : State F) :
    (SimpleDemo.simpleDemo o rt latest st).LogExtends
      (st.log ++ [Event.println "🎯 シンプル読み書き分離テスト",
        Event.println "\n📖 スタンバイサーバーから読み取り...",
        Event.dbOpen (SimpleDemo.standbyConnStr o.env)]) := by
  have hbase : State.LogExtends
      (st.log ++ [Event.println "🎯 シンプル読み書き分離テスト",
        Event.println "\n📖 スタンバイサーバーから読み取り...",
        Event.dbOpen (SimpleDemo.standbyConnStr o.env)])
      (((st.emit (Event.println "🎯 シンプル読み書き分離テスト")).emit
        (Event.println "\n📖 スタンバイサーバーから読み取り...")).emit
        (Event.dbOpen (SimpleDemo.standbyConnStr o.env))) :=
    ⟨[], by simp [State.emit]⟩
  generalize st.log ++ [Event.println "🎯 シンプル読み書き分離テスト",
    Event.println "\n📖 スタンバイサーバーから読み取り...",
    Event.dbOpen (SimpleDemo.standbyConnStr o.env)] = base at hbase ⊢
  unfold SimpleDemo.simpleDemo
  lift_lets
  intro s1 s2 s3 before countBefore s4 s5 rows s6 s7 s8 s9 s10 now testData ran output
    s11 s12 s13 s14 s15 after countAfter s16 s17 s18 s19 s20 s21 s22 s23 s24
  have h3 : s3.LogExtends base := hbase
  have h4 : s4.LogExtends base := State.LogExtends.mk_append _ _ _ _ _ h3
  have h5 : s5.LogExtends base := h4.emit _
  have h6 : s6.LogExtends base := State.LogExtends.mk_append _ _ _ _ _ h5
  have h7 : s7.LogExtends base := h6.emit _
  have h8 : s8.LogExtends base := SimpleDemo.rowsLoop_log rt _ _ h7
  have h9 : s9.LogExtends base := h8.emit _
  have h10 : s10.LogExtends base := h9.emit _
  have h11 : s11.LogExtends base := State.LogExtends.mk_append _ _ _ _ _ h10
  have h12 : s12.LogExtends base := h11.emit _
  have h13 : s13.LogExtends base := h12.emit _
  have h14 : s14.LogExtends base := h13.emit _
  have h15 : s15.LogExtends base := h14.emit _
  have h16 : s16.LogExtends base := State.LogExtends.mk_append _ _ _ _ _ h15
  have h17 : s17.LogExtends base := h16.emit _
  have h18 : s18.LogExtends base := h17.emit _
  have h19 : s19.LogExtends base := h18.emit _
  have h20 : s20.LogExtends base := by
    show State.LogExtends base (if countAfter > countBefore then _ else _)
    split
    · split
      · exact h19.emit _
      · exact h19.emit _
    · exact h17.emit _
  have h21 : s21.LogExtends base := h20.emit _
  have h22 : s22.LogExtends base := h21.emit _
  have h23 : s23.LogExtends base := h22.emit _
  have h24 : s24.LogExtends base := h23.emit _
  split
  · exact h3.emit _
  · split
    · exact (h4.emit _).emit _
    · split
      · exact (h6.emit _).emit _
      · split
        · exact ((h11.emit _).emit _).emit _
        · split
          · exact (h11.emit _).emit _
          · split
            · exact (h16.emit _).emit _
            · exact h24.emit _

/-- C11: in `simpleDemo` the host of the standby connection string is 127.0.0.1
when `POSTGRES_STANDBY_HOST` is unset, empty or exactly "localhost", and
otherwise the value of the variable unchanged; the port is the value of
`POSTGRES_STANDBY_PORT`, or 5433 when that is unset or empty. The string built
from them is the one the standby connection is opened with, the first call
`simpleDemo` makes. -/
theorem SimpleDemo.standby_host_and_port {F : Type} (o : Outside) (rt : Runtime F)
    (latest : Option ReplicationData) (st : State F) :
    SimpleDemo.standbyHost o.env =
      (match o.env "POSTGRES_STANDBY_HOST" with
       | none => "127.0.0.1"
       | some v => if v = "" ∨ v = "localhost" then "127.0.0.1" else v) ∧
    SimpleDemo.standbyPort o.env =
      (match o.env "POSTGRES_STANDBY_PORT" with
       | none => "5433"
       | some v => if v = "" then "5433" else v) ∧
    SimpleDemo.standbyConnStr o.env =
      "host=" ++ SimpleDemo.standbyHost o.env ++ " port=" ++ SimpleDemo.standbyPort o.env ++
        " user=" ++ getEnv o.env "POSTGRES_USER" "postgres" ++
        " password=" ++ getEnv o.env "POSTGRES_PASSWORD" "password" ++
        " dbname=" ++ getEnv o.env "POSTGRES_DB" "testdb" ++ " sslmode=disable" ∧
    ∃ more, (SimpleDemo.simpleDemo o rt latest st).log =
      st.log ++ [Event.println "🎯 シンプル読み書き分離テスト",
        Event.println "\n📖 スタンバイサーバーから読み取り...",
        Event.dbOpen (SimpleDemo.standbyConnStr o.env)] ++ more := by
  refine ⟨?_, ?_, rfl, SimpleDemo.simpleDemo_log o rt latest st⟩
  · unfold SimpleDemo.standbyHost getEnv Getenv
    cases h : o.env "POSTGRES_STANDBY_HOST" with
    | none => simp
    | some v =>
      by_cases hv : v = ""
      · simp [hv]
      · by_cases hl : v = "localhost"
        · simp [hl]
        · simp [hv, hl]
  · unfold SimpleDemo.standbyPort getEnv Getenv
    cases h : o.env "POSTGRES_STANDBY_PORT" with
    | none => simp
    | some v => by_cases hv : v = "" <;> simp [hv]

/-- C11 at concrete inputs: "LOCALHOST" and "6543" are kept; unset variables,
and the host "localhost", give 127.0.0.1 and 5433. -/
theorem SimpleDemo.standby_host_and_port_witness :
    (SimpleDemo.standbyHost envUpperHost = "LOCALHOST" ∧
      SimpleDemo.standbyPort envUpperHost = "6543") ∧
    (SimpleDemo.standbyHost (fun _ => none) = "127.0.0.1" ∧
      SimpleDemo.standbyPort (fun _ => none) = "5433") ∧
    SimpleDemo.standbyHost (fun _ => some "localhost") = "127.0.0.1" :=
  ⟨⟨(SimpleDemo.standby_host_and_port { outsideQuiet with env := envUpperHost }
      sampleRuntime none (State.start ℚ)).1.trans (by decide),
    (SimpleDemo.standby_host_and_port { outsideQuiet with env := envUpperHost }
      sampleRuntime none (State.start ℚ)).2.1.trans (by decide)⟩,
   ⟨(SimpleDemo.standby_host_and_port outsideQuiet sampleRuntime none
      (State.start ℚ)).1.trans (by decide),
    (SimpleDemo.standby_host_and_port outsideQuiet sampleRuntime none
      (State.start ℚ)).2.1.trans (by decide)⟩,
   (SimpleDemo.standby_host_and_port { outsideQuiet with env := fun _ => some "localhost" }
      sampleRuntime none (State.start ℚ)).1.trans (by decide)⟩

/-! ## Properties: the performance test -/

/-- The loop of `RunPerformanceTest` appends one write time for each of its `n`
subprocess calls that returned no error. -/
theorem ReplicationDemo.perfLoop_writeTimes {F : Type} (o : Outside) (rt : Runtime F)
    (iterations : Int) (n : Nat) (i : Int) (writeTimes readTimes : List F) (st : State F) :
    (ReplicationDemo.perfLoop o rt iterations n i writeTimes readTimes st).1.length =
      writeTimes.length +
        (List.range n).countP (fun k => !(o.cmd (st.cmdCalls + k)).err) := by
  induction n generalizing i writeTimes readTimes st with
  | zero => simp [ReplicationDemo.perfLoop]
  | succ n ih =>
    rw [ReplicationDemo.perfLoop, countP_range_succ]
    have hfun : (fun k => !(o.cmd (st.cmdCalls + 1 + k)).err) =
        (fun k => !(o.cmd (st.cmdCalls + (k + 1))).err) := by
      funext k
      rw [show st.cmdCalls + 1 + k = st.cmdCalls + (k + 1) by omega]
    simp only [ReplicationDemo.WriteToPrimary_fst, ReplicationDemo.ReadFromStandby_fst,
      timeNow_cmdCalls, State.emit_cmdCalls]
    cases herr : (o.cmd st.cmdCalls).err
    · simp only [Bool.not_false, if_true, Nat.add_zero]
      split
      · rw [ih]
        simp only [timeNow_cmdCalls, State.emit_cmdCalls, timeSleep_cmdCalls,
          ReplicationDemo.ReadFromStandby_cmdCalls, ReplicationDemo.WriteToPrimary_cmdCalls,
          List.length_append, List.length_singleton, hfun, herr, Bool.not_false, if_true]
        omega
      · rw [ih]
        simp only [timeNow_cmdCalls, State.emit_cmdCalls, timeSleep_cmdCalls,
          ReplicationDemo.ReadFromStandby_cmdCalls, ReplicationDemo.WriteToPrimary_cmdCalls,
          List.length_append, List.length_singleton, hfun, herr, Bool.not_false, if_true]
        omega
    · simp only [Bool.not_true, Bool.false_eq_true, if_false, Nat.add_zero]
      rw [ih]
      simp only [timeNow_cmdCalls, State.emit_cmdCalls,
        ReplicationDemo.WriteToPrimary_cmdCalls, hfun, herr, Bool.not_true,
        Bool.false_eq_true, if_false]
      omega

/-- The loop of `RunPerformanceTest` makes one standby read for each successful
write, in order, and appends one read time for each of those reads that
succeeded. -/
theorem ReplicationDemo.perfLoop_readTimes {F : Type} (o : Outside) (rt : Runtime F)
    (iterations : Int) (n : Nat) (i : Int) (writeTimes readTimes : List F) (st : State F) :
    (ReplicationDemo.perfLoop o rt iterations n i writeTimes readTimes st).2.1.length =
      readTimes.length +
        (List.range ((List.range n).countP (fun k => !(o.cmd (st.cmdCalls + k)).err))).countP
          (fun k => !(o.rows (st.rowsCalls + k)).err &&
            (ReplicationDemo.scanLoop (o.rows (st.rowsCalls + k)).rows []).isSome) := by
  induction n generalizing i writeTimes readTimes st with
  | zero => simp [ReplicationDemo.perfLoop]
  | succ n ih =>
    rw [ReplicationDemo.perfLoop, countP_range_succ]
    have hfun : (fun k => !(o.cmd (st.cmdCalls + 1 + k)).err) =
        (fun k => !(o.cmd (st.cmdCalls + (k + 1))).err) := by
      funext k
      rw [show st.cmdCalls + 1 + k = st.cmdCalls + (k + 1) by omega]
    have hfun2 : (fun k => !(o.rows (st.rowsCalls + 1 + k)).err &&
          (ReplicationDemo.scanLoop (o.rows (st.rowsCalls + 1 + k)).rows []).isSome) =
        (fun k => !(o.rows (st.rowsCalls + (k + 1))).err &&
          (ReplicationDemo.scanLoop (o.rows (st.rowsCalls + (k + 1))).rows []).isSome) := by
      funext k
      rw [show st.rowsCalls + 1 + k = st.rowsCalls + (k + 1) by omega]
    simp only [ReplicationDemo.WriteToPrimary_fst, ReplicationDemo.ReadFromStandby_fst,
      timeNow_cmdCalls, State.emit_cmdCalls, timeNow_rowsCalls, State.emit_rowsCalls,
      timeSleep_rowsCalls, ReplicationDemo.WriteToPrimary_rowsCalls, Nat.add_zero]
    by_cases herr' : (o.cmd st.cmdCalls).err = true
    · have herr := herr'
      simp only [herr, Bool.not_true, Bool.false_eq_true, if_false, Nat.zero_add]
      rw [ih]
      simp only [timeNow_cmdCalls, State.emit_cmdCalls,
        ReplicationDemo.WriteToPrimary_cmdCalls, timeNow_rowsCalls, State.emit_rowsCalls,
        ReplicationDemo.WriteToPrimary_rowsCalls, hfun]
    · have herr : (o.cmd st.cmdCalls).err = false := by simpa using herr'
      simp only [herr, Bool.not_false, if_true]
      rw [Nat.add_comm 1, countP_range_succ]
      by_cases hq' : (o.rows st.rowsCalls).err = true
      · have hq := hq'
        simp only [hq, if_true]
        rw [ih]
        simp only [timeNow_cmdCalls, State.emit_cmdCalls, timeSleep_cmdCalls,
          ReplicationDemo.ReadFromStandby_cmdCalls, ReplicationDemo.WriteToPrimary_cmdCalls,
          timeNow_rowsCalls, State.emit_rowsCalls, timeSleep_rowsCalls,
          ReplicationDemo.ReadFromStandby_rowsCalls, ReplicationDemo.WriteToPrimary_rowsCalls,
          hfun, hfun2, Nat.add_zero, hq, Bool.not_true, Bool.false_and,
          Bool.false_eq_true, if_false, Nat.zero_add]
      · have hq : (o.rows st.rowsCalls).err = false := by simpa using hq'
        rcases Option.eq_none_or_eq_some
          (ReplicationDemo.scanLoop (o.rows st.rowsCalls).rows []) with hscan | ⟨rows, hscan⟩
        · simp only [hq, Bool.false_eq_true, if_false, hscan]
          rw [ih]
          simp only [timeNow_cmdCalls, State.emit_cmdCalls, timeSleep_cmdCalls,
            ReplicationDemo.ReadFromStandby_cmdCalls, ReplicationDemo.WriteToPrimary_cmdCalls,
            timeNow_rowsCalls, State.emit_rowsCalls, timeSleep_rowsCalls,
            ReplicationDemo.ReadFromStandby_rowsCalls, ReplicationDemo.WriteToPrimary_rowsCalls,
            hfun, hfun2, Nat.add_zero, hq, hscan, Option.isSome_none, Bool.and_false,
            Bool.false_eq_true, if_false, Nat.zero_add]
        · simp only [hq, Bool.false_eq_true, if_false, hscan]
          rw [ih]
          simp only [timeNow_cmdCalls, State.emit_cmdCalls, timeSleep_cmdCalls,
            ReplicationDemo.ReadFromStandby_cmdCalls, ReplicationDemo.WriteToPrimary_cmdCalls,
            timeNow_rowsCalls, State.emit_rowsCalls, timeSleep_rowsCalls,
            ReplicationDemo.ReadFromStandby_rowsCalls, ReplicationDemo.WriteToPrimary_rowsCalls,
            hfun, hfun2, Nat.add_zero, hq, hscan, Option.isSome_some, Bool.not_false,
            Bool.and_self, if_true, List.length_append, List.length_singleton]
          omega

/-- Running the loop of `RunPerformanceTest` for `n + m` iterations is running
it for `n` iterations and then, from the values reached, for `m` more. -/
theorem ReplicationDemo.perfLoop_add {F : Type} (o : Outside) (rt : Runtime F)
    (iterations : Int) (n m : Nat) (i : Int) (writeTimes readTimes : List F) (st : State F) :
    ReplicationDemo.perfLoop o rt iterations (n + m) i writeTimes readTimes st =
      ReplicationDemo.perfLoop o rt iterations m (i + n)
        (ReplicationDemo.perfLoop o rt iterations n i writeTimes readTimes st).1
        (ReplicationDemo.perfLoop o rt iterations n i writeTimes readTimes st).2.1
        (ReplicationDemo.perfLoop o rt iterations n i writeTimes readTimes st).2.2 := by
  induction n generalizing i writeTimes readTimes st with
  | zero => simp [ReplicationDemo.perfLoop]
  | succ n ih =>
    have hi : i + ((n + 1 : Nat) : Int) = i + 1 + (n : Int) := by push_cast; ring
    rw [show n + 1 + m = (n + m) + 1 by omega, hi, ReplicationDemo.perfLoop,
      ReplicationDemo.perfLoop]
    simp only []
    split
    · split
      · rw [ih]
      · rw [ih]
    · rw [ih]

/-- C13: in `RunPerformanceTest`, after every number `n` of loop iterations
`len(readTimes) <= len(writeTimes) <= n`, and the run of `n + m` iterations
continues the run of `n`. After the loop the results block is printed exactly
when `readTimes` is not empty, which is exactly when one of the reads made after
the successful writes succeeded; otherwise the no-valid-data line is printed.
For `iterations <= 0` the loop body never runs: no call to the outside is made
and the no-valid-data line is printed. -/
theorem ReplicationDemo.RunPerformanceTest_spec {F : Type} [Zero F] [Add F] [Div F]
    [NatCast F] (o : Outside) (rt : Runtime F) (iterations : Int) (st : State F) :
    (∀ n m : Nat,
      (ReplicationDemo.perfLoop o rt iterations n 0 [] [] st).2.1.length ≤
        (ReplicationDemo.perfLoop o rt iterations n 0 [] [] st).1.length ∧
      (ReplicationDemo.perfLoop o rt iterations n 0 [] [] st).1.length ≤ n ∧
      ReplicationDemo.perfLoop o rt iterations (n + m) 0 [] [] st =
        ReplicationDemo.perfLoop o rt iterations m (0 + n)
          (ReplicationDemo.perfLoop o rt iterations n 0 [] [] st).1
          (ReplicationDemo.perfLoop o rt iterations n 0 [] [] st).2.1
          (ReplicationDemo.perfLoop o rt iterations n 0 [] [] st).2.2) ∧
    (let header := ((st.emit (Event.printf ("\n" ++ Repeat "=" 60 ++ "\n") [])).emit
        (Event.printf "⚡ パフォーマンステスト開始 (%d回)\n" [Arg.d iterations])).emit
        (Event.println (Repeat "=" 60))
     let looped := ReplicationDemo.perfLoop o rt iterations iterations.toNat 0 [] [] header
     ReplicationDemo.RunPerformanceTest o rt iterations st =
       (if 0 < looped.2.1.length then
          (ReplicationDemo.GetReplicationStatus o rt
            (((((looped.2.2.emit (Event.printf "\n📈 パフォーマンス結果:\n" [])).emit
              (Event.printf "   平均書き込み時間: %.3f秒\n"
                [Arg.f (ReplicationDemo.average looped.1)])).emit
              (Event.printf "   平均読み取り時間: %.3f秒\n"
                [Arg.f (ReplicationDemo.average looped.2.1)])).emit
              (Event.printf "   書き込み/読み取り比: %.1f倍\n"
                [Arg.f (ReplicationDemo.average looped.1 /
                  ReplicationDemo.average looped.2.1)])).emit
              (Event.printf "\n📊 最終レプリケーション状態:\n" []))).2
        else
          looped.2.2.emit (Event.println "❌ 有効なパフォーマンスデータが取得できませんでした")) ∧
     (0 < looped.2.1.length ↔
       ∃ k, k < (List.range iterations.toNat).countP
             (fun j => !(o.cmd (st.cmdCalls + j)).err) ∧
         (o.rows (st.rowsCalls + k)).err = false ∧
         (ReplicationDemo.scanLoop (o.rows (st.rowsCalls + k)).rows []).isSome = true)) ∧
    (iterations ≤ 0 →
      ReplicationDemo.RunPerformanceTest o rt iterations st =
        (((st.emit (Event.printf ("\n" ++ Repeat "=" 60 ++ "\n") [])).emit
          (Event.printf "⚡ パフォーマンステスト開始 (%d回)\n" [Arg.d iterations])).emit
          (Event.println (Repeat "=" 60))).emit
          (Event.println "❌ 有効なパフォーマンスデータが取得できませんでした") ∧
      (ReplicationDemo.RunPerformanceTest o rt iterations st).calls = st.calls) := by
  have hinv : ∀ (n : Nat) (s : State F),
      (ReplicationDemo.perfLoop o rt iterations n 0 [] [] s).2.1.length ≤
        (ReplicationDemo.perfLoop o rt iterations n 0 [] [] s).1.length ∧
      (ReplicationDemo.perfLoop o rt iterations n 0 [] [] s).1.length ≤ n := by
    intro n s
    rw [ReplicationDemo.perfLoop_readTimes, ReplicationDemo.perfLoop_writeTimes]
    simp only [List.length_nil, Nat.zero_add]
    refine ⟨?_, ?_⟩
    · exact le_trans (List.countP_le_length _) (by simp)
    · exact le_trans (List.countP_le_length _) (by simp)
  refine ⟨fun n m => ⟨(hinv n st).1, (hinv n st).2,
    ReplicationDemo.perfLoop_add o rt iterations n m 0 [] [] st⟩, ?_, ?_⟩
  · intro header looped
    refine ⟨?_, ?_⟩
    · unfold ReplicationDemo.RunPerformanceTest
      simp only []
      by_cases h : 0 < looped.2.1.length
      · have hw : 0 < looped.1.length := lt_of_lt_of_le h (hinv _ header).1
        rw [if_pos (show looped.1.length > 0 ∧ looped.2.1.length > 0 from ⟨hw, h⟩), if_pos h]
      · rw [if_neg (show ¬ (looped.1.length > 0 ∧ looped.2.1.length > 0) from fun hh => h hh.2),
          if_neg h]
    · have hlen := ReplicationDemo.perfLoop_readTimes o rt iterations iterations.toNat 0
        ([] : List F) [] header
      have hc : header.cmdCalls = st.cmdCalls := rfl
      have hr : header.rowsCalls = st.rowsCalls := rfl
      rw [hc, hr] at hlen
      show 0 < (ReplicationDemo.perfLoop o rt iterations iterations.toNat 0 [] []
        header).2.1.length ↔ _
      rw [hlen]
      simp only [List.length_nil, Nat.zero_add, List.countP_pos_iff, List.mem_range,
        Bool.and_eq_true, Bool.not_eq_true']
  · intro hle
    have h0 : iterations.toNat = 0 := Int.toNat_eq_zero.mpr hle
    have hrun : ReplicationDemo.RunPerformanceTest o rt iterations st =
        (((st.emit (Event.printf ("\n" ++ Repeat "=" 60 ++ "\n") [])).emit
          (Event.printf "⚡ パフォーマンステスト開始 (%d回)\n" [Arg.d iterations])).emit
          (Event.println (Repeat "=" 60))).emit
          (Event.println "❌ 有効なパフォーマンスデータが取得できませんでした") := by
      unfold ReplicationDemo.RunPerformanceTest
      simp [h0, ReplicationDemo.perfLoop]
    refine ⟨hrun, ?_⟩
    rw [hrun]
    simp

/-- C13 at concrete inputs: with `iterations = -1` no call is made and the last
line printed is the no-valid-data line; with three iterations in a world where
every call succeeds, three writes and three reads are timed. -/
theorem ReplicationDemo.RunPerformanceTest_spec_witness :
    ((ReplicationDemo.RunPerformanceTest outsideQuiet sampleRuntime (-1)
        (State.start ℚ)).calls = [] ∧
      (ReplicationDemo.RunPerformanceTest outsideQuiet sampleRuntime (-1)
        (State.start ℚ)).log.getLast? =
        some (Event.println "❌ 有効なパフォーマンスデータが取得できませんでした")) ∧
    ((ReplicationDemo.perfLoop outsideQuiet sampleRuntime 3 3 0 [] []
        (State.start ℚ)).2.1.length ≤
      (ReplicationDemo.perfLoop outsideQuiet sampleRuntime 3 3 0 [] []
        (State.start ℚ)).1.length ∧
      (ReplicationDemo.perfLoop outsideQuiet sampleRuntime 3 3 0 [] []
        (State.start ℚ)).1.length ≤ 3) :=
  ⟨⟨((ReplicationDemo.RunPerformanceTest_spec outsideQuiet sampleRuntime (-1)
        (State.start ℚ)).2.2 (by decide)).2,
    by
      rw [((ReplicationDemo.RunPerformanceTest_spec outsideQuiet sampleRuntime (-1)
        (State.start ℚ)).2.2 (by decide)).1]
      simp [State.emit]⟩,
   ⟨((ReplicationDemo.RunPerformanceTest_spec outsideQuiet sampleRuntime 3
        (State.start ℚ)).1 3 0).1,
    ((ReplicationDemo.RunPerformanceTest_spec outsideQuiet sampleRuntime 3
        (State.start ℚ)).1 3 0).2.1⟩⟩

end PgReplication
